import Mathlib

/-!
Shallow embedding of the pose-similarity scoring engine of the Tock-Tick
repository, together with theorems settling the frozen claims about it.

Sources embedded:
- `src/frontend/src/utils/poseUtil.js` (geometry utilities and per-joint
  similarity scoring),
- `src/frontend/src/hooks/usePoseDetection.js` (aggregate weighted similarity,
  motion penalty, and the step state machine),
- `src/unnamed/part_015` (the backend comprehensive-score and
  performance-point calculator, exported as `scoring` utilities).

Modelling conventions:
- JavaScript numbers are modelled as real numbers (exact arithmetic; no
  floating-point rounding and no NaN).  `Math.hypot`/`Math.sqrt` become
  `Real.sqrt`, `Math.acos` becomes `Real.arccos`.
- A possibly-undefined object field is an `Option`; the JS operators `??`
  and `||` (with a numeric default) become `Option.getD` and `jsOrNum`.
- A JS array whose entries may be `null`/undefined (the code only ever
  distinguishes entries via `== null`) is a `List (Option _)`; writing past
  the end of a JS array extends it with holes, modelled by `jsSetExtend`.
- Code that can raise a `TypeError` (reading a property of `undefined`)
  returns `Except Unit _`, with `.error ()` marking the throw.
-/

/-- One MediaPipe landmark: `{x, y, z, visibility}`, each field possibly
undefined. -/
structure Landmark where
  x : Option ℝ
  y : Option ℝ
  z : Option ℝ
  visibility : Option ℝ

/-- A pose: a JS array of landmarks whose entries may be undefined. -/
abbrev JsPose := List (Option Landmark)

/-- A numeric triple `[x, y, z]` as produced by `landmarksToArray`. -/
structure Vec3 where
  x : ℝ
  y : ℝ
  z : ℝ

/-- JS `v || d` for a possibly-undefined number `v`: the default is taken
when `v` is undefined or `0` (both falsy). -/
noncomputable def jsOrNum (v : Option ℝ) (d : ℝ) : ℝ :=
  match v with
  | none => d
  | some x => if x = 0 then d else x

/-- JS `Math.round`: round half toward positive infinity. -/
noncomputable def jsRound (x : ℝ) : ℤ := ⌊x + 1/2⌋

/-- JS array element assignment `a[i] = v`: in-range writes update the slot,
out-of-range writes extend the array with holes (holes and `null` are
indistinguishable to this code, which only tests `== null`). -/
def jsSetExtend (l : List (Option ℝ)) (i : ℕ) (v : ℝ) : List (Option ℝ) :=
  if i < l.length then l.set i (some v)
  else (l ++ List.replicate (i - l.length) none) ++ [some v]

namespace PoseUtil

/-!  `src/frontend/src/utils/poseUtil.js`  -/

/-- `landmarksToArray` (poseUtil.js line 4):
`(landmarks || []).map((l) => [l.x ?? 0, l.y ?? 0, l.z ?? 0])`.
Reading `l.x` of an undefined entry throws. -/
def landmarksToArray : JsPose → Except Unit (List Vec3)
  | [] => .ok []
  | none :: _ => .error ()
  | some lm :: rest => do
      let tail ← landmarksToArray rest
      return ⟨lm.x.getD 0, lm.y.getD 0, lm.z.getD 0⟩ :: tail

/-- `normalizeLandmarks` (poseUtil.js line 8): center on the hip midpoint
(indices 23, 24) and divide by the shoulder-midpoint-to-hip-midpoint
distance; `Math.hypot(...) || 1e-6` substitutes `1e-6` only when the
distance is exactly `0`.  Indexing `arr[23]` etc. on a non-empty array that
is too short yields `undefined`, and `undefined[0]` throws. -/
noncomputable def normalizeLandmarks (arr : List Vec3) : Except Unit (List Vec3) :=
  if arr.length = 0 then .ok []
  else
    match arr[23]?, arr[24]?, arr[11]?, arr[12]? with
    | some lhip, some rhip, some lsh, some rsh =>
      let hip : Vec3 := ⟨(lhip.x + rhip.x) / 2, (lhip.y + rhip.y) / 2, (lhip.z + rhip.z) / 2⟩
      let shoulder : Vec3 :=
        ⟨(lsh.x + rsh.x) / 2, (lsh.y + rsh.y) / 2, (lsh.z + rsh.z) / 2⟩
      let h := Real.sqrt ((shoulder.x - hip.x) ^ 2 + (shoulder.y - hip.y) ^ 2 +
        (shoulder.z - hip.z) ^ 2)
      let scale := if h = 0 then 1e-6 else h
      .ok (arr.map fun p =>
        ⟨(p.x - hip.x) / scale, (p.y - hip.y) / scale, (p.z - hip.z) / scale⟩)
    | _, _, _, _ => .error ()

/-- `cosineSimilarity` (poseUtil.js line 38): loop over `vecA.length`,
out-of-range reads of `vecB` default to `0` via `|| 0`. -/
noncomputable def cosineSimilarity (vecA vecB : List ℝ) : ℝ :=
  let pairs := (List.range vecA.length).map fun i => (vecA.getD i 0, vecB.getD i 0)
  let dot := (pairs.map fun p => p.1 * p.2).sum
  let na := (pairs.map fun p => p.1 * p.1).sum
  let nb := (pairs.map fun p => p.2 * p.2).sum
  dot / (Real.sqrt na * Real.sqrt nb + 1e-9)

/-- `poseSimilarity` (poseUtil.js line 50).  The JS null-input guard
(`!landmarksA`) is unrepresentable here because the inputs are lists. -/
noncomputable def poseSimilarity (landmarksA landmarksB : JsPose) : Except Unit ℝ := do
  let a ← normalizeLandmarks (← landmarksToArray landmarksA)
  let b ← normalizeLandmarks (← landmarksToArray landmarksB)
  if a.length = 0 ∨ a.length ≠ b.length then return 0
  else
    let flatA := a.flatMap fun p => [p.x, p.y, p.z]
    let flatB := b.flatMap fun p => [p.x, p.y, p.z]
    return (cosineSimilarity flatA flatB + 1) / 2

/-- `angleBetweenPoints` (poseUtil.js line 95): interior angle in degrees at
`b`, in the x/y plane, or `null` when a point is missing or a ray has zero
length. -/
noncomputable def angleBetweenPoints (a b c : Option Vec3) : Option ℝ :=
  match a, b, c with
  | some a, some b, some c =>
    let abx := a.x - b.x
    let aby := a.y - b.y
    let cbx := c.x - b.x
    let cby := c.y - b.y
    let dot := abx * cbx + aby * cby
    let mag1 := Real.sqrt (abx ^ 2 + aby ^ 2)
    let mag2 := Real.sqrt (cbx ^ 2 + cby ^ 2)
    if mag1 = 0 ∨ mag2 = 0 then none
    else
      let cos := min 1 (max (-1) (dot / (mag1 * mag2)))
      some (Real.arccos cos * 180 / Real.pi)
  | _, _, _ => none

/-- The eight named joint angles (poseUtil.js `poseToAngles` result). -/
structure JointAngles where
  left_knee : Option ℝ
  right_knee : Option ℝ
  left_hip : Option ℝ
  right_hip : Option ℝ
  left_elbow : Option ℝ
  right_elbow : Option ℝ
  left_shoulder : Option ℝ
  right_shoulder : Option ℝ

/-- `poseToAngles` (poseUtil.js line 110); `get(i)` is `arr[i] || null`. -/
noncomputable def poseToAngles (landmarks : JsPose) : Except Unit JointAngles :=
  if landmarks.length = 0 then
    .ok ⟨none, none, none, none, none, none, none, none⟩
  else do
    let arr ← landmarksToArray landmarks
    let get := fun i => arr[i]?
    return {
      left_knee := angleBetweenPoints (get 23) (get 25) (get 27)
      right_knee := angleBetweenPoints (get 24) (get 26) (get 28)
      left_hip := angleBetweenPoints (get 11) (get 23) (get 25)
      right_hip := angleBetweenPoints (get 12) (get 24) (get 26)
      left_elbow := angleBetweenPoints (get 11) (get 13) (get 15)
      right_elbow := angleBetweenPoints (get 12) (get 14) (get 16)
      left_shoulder := angleBetweenPoints (get 13) (get 11) (get 23)
      right_shoulder := angleBetweenPoints (get 14) (get 12) (get 24) }

/-- `angleSimilarity` (poseUtil.js line 128): `0` when either angle is
`null`, else `max(0, 1 - |a - b| / tolerance)`. -/
noncomputable def angleSimilarity (a b : Option ℝ) (tolerance : ℝ) : ℝ :=
  match a, b with
  | some a, some b => max 0 (1 - |a - b| / tolerance)
  | _, _ => 0

/-- Options object of `perJointAngleSimilarity`; absent fields are `none`. -/
structure SimOpts where
  angleTolerance : Option ℝ := none
  distTolerance : Option ℝ := none
  visibilityThreshold : Option ℝ := none

/-- Visibility lookup used by `perJointAngleSimilarity`:
`(lms[idx] && typeof lms[idx].visibility === number) ? lms[idx].visibility : 1`. -/
def visOf (l : JsPose) (idx : ℕ) : ℝ :=
  match l.getD idx none with
  | some lm => lm.visibility.getD 1
  | none => 1

/-- The joint-name-to-landmark-index `mapping` of `perJointAngleSimilarity`
(poseUtil.js line 142), in `Object.keys` iteration (insertion) order, paired
with the corresponding `JointAngles` accessor. -/
noncomputable def angleMapping : List ((JointAngles → Option ℝ) × ℕ) :=
  [(JointAngles.left_knee, 25), (JointAngles.right_knee, 26),
   (JointAngles.left_hip, 23), (JointAngles.right_hip, 24),
   (JointAngles.left_elbow, 13), (JointAngles.right_elbow, 14),
   (JointAngles.left_shoulder, 11), (JointAngles.right_shoulder, 12)]

/-- Loop body of the first loop of `perJointAngleSimilarity` (poseUtil.js
lines 156-168): the angle-based similarity written for one mapped joint,
scaled by a floored visibility factor when average visibility is below the
threshold, floored overall at `0.2`. -/
noncomputable def angleJointVal (lmA lmB : JsPose) (anglesA anglesB : JointAngles)
    (angleTol visThreshold : ℝ) (getter : JointAngles → Option ℝ) (idx : ℕ) : ℝ :=
  let vA := visOf lmA idx
  let vB := visOf lmB idx
  let simRaw := angleSimilarity (getter anglesA) (getter anglesB) angleTol
  let visAvg := (vA + vB) / 2
  let visFactor := if visAvg < visThreshold
    then max 0.5 (visAvg / max 1e-6 visThreshold) else 1
  max 0.2 (min 1 (simRaw * visFactor))

/-- The first loop of `perJointAngleSimilarity` (poseUtil.js lines 155-170):
assign the angle-based similarity for each of the eight mapped joints. -/
noncomputable def assignAngleSims (lmA lmB : JsPose) (anglesA anglesB : JointAngles)
    (angleTol visThreshold : ℝ) (sims : List (Option ℝ)) : List (Option ℝ) :=
  angleMapping.foldl (fun sims entry =>
    jsSetExtend sims entry.2
      (angleJointVal lmA lmB anglesA anglesB angleTol visThreshold entry.1 entry.2)) sims

/-- Value written by the second loop of `perJointAngleSimilarity` for an
index whose entry is still `null` (poseUtil.js lines 177-194): normalized
distance-based similarity, with a visibility-scaled variant when either
landmark is below the visibility threshold, and `0.2` when a normalized
point is missing. -/
noncomputable def distFallbackVal (lmA lmB : JsPose) (normA normB : List Vec3)
    (distTol visThreshold : ℝ) (i : ℕ) : ℝ :=
  match normA[i]?, normB[i]? with
  | some a, some b =>
    let vA := visOf lmA i
    let vB := visOf lmB i
    if vA < visThreshold ∨ vB < visThreshold then
      let dist := Real.sqrt ((a.x - b.x) ^ 2 + (a.y - b.y) ^ 2 + (a.z - b.z) ^ 2)
      let fallback := max 0 (min 1 (1 - dist / distTol))
      let visAvg := (vA + vB) / 2
      let visFactor := max 0.5 (visAvg / max 1e-6 visThreshold)
      max 0.2 (fallback * visFactor)
    else
      let dist := Real.sqrt ((a.x - b.x) ^ 2 + (a.y - b.y) ^ 2 + (a.z - b.z) ^ 2)
      max 0 (min 1 (1 - dist / distTol))
  | _, _ => 0.2

/-- The second loop of `perJointAngleSimilarity` (poseUtil.js lines
175-196): fill every entry that is still `null` with the distance-based
fallback value. -/
noncomputable def assignDistFallback (lmA lmB : JsPose) (normA normB : List Vec3)
    (distTol visThreshold : ℝ) (sims : List (Option ℝ)) : List (Option ℝ) :=
  (List.range sims.length).foldl (fun sims i =>
    match sims.getD i none with
    | some _ => sims
    | none => jsSetExtend sims i
        (distFallbackVal lmA lmB normA normB distTol visThreshold i)) sims

/-- `perJointAngleSimilarity` (poseUtil.js line 134): angle-based similarity
for the eight mapped joints, distance-based fallback for the rest.
`opts.angleTolerance || 25`, `opts.distTolerance || 0.6`, and the
`typeof`-guarded `visibilityThreshold` defaulting to `0.25`. -/
noncomputable def perJointAngleSimilarity (landmarksA landmarksB : JsPose)
    (opts : SimOpts) : Except Unit (List (Option ℝ)) := do
  let angleTol := jsOrNum opts.angleTolerance 25
  let distTol := jsOrNum opts.distTolerance 0.6
  let visThreshold := opts.visibilityThreshold.getD 0.25
  let anglesA ← poseToAngles landmarksA
  let anglesB ← poseToAngles landmarksB
  let sims0 : List (Option ℝ) := List.replicate landmarksA.length none
  let sims1 := assignAngleSims landmarksA landmarksB anglesA anglesB
    angleTol visThreshold sims0
  let normA ← normalizeLandmarks (← landmarksToArray landmarksA)
  let normB ← normalizeLandmarks (← landmarksToArray landmarksB)
  return assignDistFallback landmarksA landmarksB normA normB distTol visThreshold sims1

/-- `shoulderSpreadSimilarity` (poseUtil.js line 201): compare the
left-to-right shoulder distance of both poses after normalization. -/
noncomputable def shoulderSpreadSimilarity (landmarksA landmarksB : JsPose)
    (tol : ℝ) : Except Unit ℝ := do
  let arrA ← normalizeLandmarks (← landmarksToArray landmarksA)
  let arrB ← normalizeLandmarks (← landmarksToArray landmarksB)
  if arrA.length = 0 ∨ arrB.length = 0 then return 0
  else
    match arrA[11]?, arrA[12]?, arrB[11]?, arrB[12]? with
    | some aL, some aR, some bL, some bR =>
      let dA := Real.sqrt ((aL.x - aR.x) ^ 2 + (aL.y - aR.y) ^ 2)
      let dB := Real.sqrt ((bL.x - bR.x) ^ 2 + (bL.y - bR.y) ^ 2)
      return max 0 (min 1 (1 - |dA - dB| / tol))
    | _, _, _, _ => return 0

end PoseUtil

namespace Hook

/-!  `src/frontend/src/hooks/usePoseDetection.js`  -/

open PoseUtil

/-- The `weightMap` of the first `usePoseDetection` variant
(usePoseDetection.js lines 130-146), listed in `Object.keys` iteration
order (integer-like keys iterate in ascending numeric order; the sum is
order-independent). -/
noncomputable def weightMapV1 : List (ℕ × ℝ) :=
  [(11, 0.12), (12, 0.12), (13, 0.11), (14, 0.11), (15, 0.09), (16, 0.09),
   (23, 0.10), (24, 0.10), (25, 0.12), (26, 0.12), (27, 0.08), (28, 0.08)]

/-- `shoulderSpreadWeight` of the first variant (line 147). -/
noncomputable def shoulderSpreadWeightV1 : ℝ := 0.06

/-- The `weightMap` of the second `usePoseDetection` variant
(usePoseDetection.js lines 449-465), in ascending key order. -/
noncomputable def weightMapV2 : List (ℕ × ℝ) :=
  [(11, 0.14), (12, 0.14), (13, 0.12), (14, 0.12), (15, 0.12), (16, 0.12),
   (23, 0.06), (24, 0.06), (25, 0.10), (26, 0.10), (27, 0.06), (28, 0.06)]

/-- `shoulderSpreadWeight` of the second variant (line 466). -/
noncomputable def shoulderSpreadWeightV2 : ℝ := 0.15

/-- The weighted-sum loop of the hook (lines 148-162): per-joint
similarities weighted by `weightMap` with a fallback for missing entries,
plus the shoulder-spread term, divided by the total weight (`wsum ? sum /
wsum : 0`). -/
noncomputable def weightedAggregate (sims : List (Option ℝ)) (spreadSim : ℝ)
    (weightMap : List (ℕ × ℝ)) (spreadWeight fallbackSim : ℝ) : ℝ :=
  let sum := (weightMap.map fun entry =>
    ((sims.getD entry.1 none).getD fallbackSim) * entry.2).sum
    + spreadSim * spreadWeight
  let wsum := (weightMap.map fun entry => entry.2).sum + spreadWeight
  if wsum = 0 then 0 else sum / wsum

/-- Aggregate pose similarity of the first hook variant before the motion
penalty (usePoseDetection.js lines 124-162): `perJointAngleSimilarity` with
`{angleTolerance: 30, distTolerance: 0.8, visibilityThreshold: 0.2}`,
missing-entry fallback `0.5`, shoulder-spread tolerance `1.0` and weight
`0.06`. -/
noncomputable def aggregateSimilarityV1 (landmarks target : JsPose) : Except Unit ℝ := do
  let sims ← perJointAngleSimilarity landmarks target
    ⟨some 30, some 0.8, some 0.2⟩
  let spreadSim ← shoulderSpreadSimilarity landmarks target 1.0
  return weightedAggregate sims spreadSim weightMapV1 shoulderSpreadWeightV1 0.5

/-- Mean per-landmark displacement between two JS poses (the `refMotion` /
`userMotion` loops at lines 166-192): `0` when the lengths differ, else the
mean of `Math.hypot(a.x-b.x, a.y-b.y, (a.z||0)-(b.z||0))` over the index
pairs where both entries are present (`0` again when no pair is present).
A defined entry with an undefined `x`/`y` would give NaN in JS; the model
reads such fields as `0` and no theorem relies on that case. -/
noncomputable def meanDisplacement (a b : JsPose) : ℝ :=
  if a.length = b.length then
    let terms := (List.range b.length).filterMap fun i =>
      match a.getD i none, b.getD i none with
      | some p, some q =>
        some (Real.sqrt ((p.x.getD 0 - q.x.getD 0) ^ 2 + (p.y.getD 0 - q.y.getD 0) ^ 2
          + (p.z.getD 0 - q.z.getD 0) ^ 2))
      | _, _ => none
    if terms.length = 0 then 0 else terms.sum / terms.length
  else 0

/-- The tiered motion penalty of the first hook variant
(usePoseDetection.js lines 194-217). -/
noncomputable def motionPenaltyV1 (sim userMotion refMotion : ℝ) : ℝ :=
  if userMotion < 0.002 then
    if sim < 0.7 then sim * 0.05 else sim * 0.5
  else if userMotion < 0.005 then
    if sim < 0.6 then sim * 0.2
    else if refMotion > 0.02 then sim * 0.6
    else sim
  else if refMotion > 0.03 ∧ userMotion < refMotion * 0.3 then sim * 0.4
  else sim

/-- `lastPoseRef` storage (line 277): `landmarks.map(l => ({x: l.x, y: l.y,
z: l.z}))` drops the visibility field.  An undefined entry would make the
JS callback throw (caught by the surrounding `try`, leaving the previous
value); the model keeps the entry undefined and no theorem relies on that
case. -/
def stripVisibility (landmarks : JsPose) : JsPose :=
  landmarks.map fun l => l.map fun lm => ⟨lm.x, lm.y, lm.z, none⟩

/-- One frame similarity of the first hook variant (lines 124-229):
aggregate similarity followed by the motion penalty, falling back to
`poseSimilarity` when the angle-based path throws (the `catch` at line
226; `poseSimilarity` itself may then throw, uncaught).  `prevTarget` is
`referenceSequence[max(0, step - 1)]` and `target` the current step pose. -/
noncomputable def frameSimilarityV1 (landmarks lastPose prevTarget target : JsPose) :
    Except Unit ℝ :=
  match (do
    let sim ← aggregateSimilarityV1 landmarks target
    let refMotion := meanDisplacement prevTarget target
    let userMotion := meanDisplacement lastPose landmarks
    return motionPenaltyV1 sim userMotion refMotion : Except Unit ℝ) with
  | .ok v => .ok v
  | .error _ => poseSimilarity landmarks target

/-- Session configuration of the hook relevant to step advancement. -/
structure SessionCfg where
  hold : ℕ
  autoSkip : ℚ
  disableAdvancement : Bool
deriving DecidableEq, Repr

/-- Mutable step state of the hook: `stepRef` and `framesAboveRef`. -/
structure StepState where
  step : ℕ
  framesAbove : ℕ
deriving DecidableEq, Repr

/-- `nextStep` (usePoseDetection.js lines 58-64): no-op on an empty
reference sequence, else advance clamped to the last index. -/
def nextStepOp (refLen : ℕ) (s : StepState) : StepState :=
  if refLen = 0 then s
  else { step := min (s.step + 1) (refLen - 1), framesAbove := 0 }

/-- `prevStep` (lines 66-72): no-op on an empty reference sequence, else
`Math.max(0, step - 1)` (truncated subtraction). -/
def prevStepOp (refLen : ℕ) (s : StepState) : StepState :=
  if refLen = 0 then s
  else { step := s.step - 1, framesAbove := 0 }

/-- `goToStep(i)` (lines 74-81): no-op on an empty reference sequence, else
`Math.max(0, Math.min(i, refLen - 1))`. -/
def goToStepOp (refLen : ℕ) (i : ℤ) (s : StepState) : StepState :=
  if refLen = 0 then s
  else { step := (max 0 (min i ((refLen : ℤ) - 1))).toNat, framesAbove := 0 }

/-- Step/frame-counter effect of one `onResults` invocation (lines
108-284), abstracting the computed similarity into `matched` (`sim >=
threshold`) and the wall clock into `elapsed` (`now - stepStart >=
autoSkip * 1000`).  An empty reference sequence returns early; otherwise
the threshold-hold block (lines 238-249) runs, then the auto-skip block
(lines 251-271). -/
def frameOp (cfg : SessionCfg) (refLen : ℕ) (matched elapsed : Bool)
    (s : StepState) : StepState :=
  if refLen = 0 then s
  else
    let fa := if matched then s.framesAbove + 1 else 0
    let afterHold : StepState :=
      if ¬cfg.disableAdvancement ∧ cfg.autoSkip ≤ 0 ∧ cfg.hold ≤ fa then
        { step := min (s.step + 1) (max 0 (refLen - 1)), framesAbove := 0 }
      else { step := s.step, framesAbove := fa }
    if ¬cfg.disableAdvancement ∧ 0 < cfg.autoSkip ∧ elapsed then
      { step := min (afterHold.step + 1) (refLen - 1), framesAbove := afterHold.framesAbove }
    else afterHold

/-- One externally observable operation on the step state. -/
inductive StepOp where
  | frame (matched elapsed : Bool)
  | next
  | prev
  | goTo (i : ℤ)
deriving DecidableEq, Repr

/-- Apply one operation. -/
def applyOp (cfg : SessionCfg) (refLen : ℕ) (s : StepState) : StepOp → StepState
  | .frame m e => frameOp cfg refLen m e s
  | .next => nextStepOp refLen s
  | .prev => prevStepOp refLen s
  | .goTo i => goToStepOp refLen i s

/-- Initial step state (`stepRef = 0`, `framesAboveRef = 0`). -/
def initState : StepState := ⟨0, 0⟩

end Hook

namespace Scoring

/-!  `src/unnamed/part_015` (backend comprehensive scoring module)  -/

/-- `SCORING_WEIGHTS` (part_015 lines 7-12). -/
noncomputable def SCORING_WEIGHTS_ACCURACY : ℝ := 0.6

noncomputable def SCORING_WEIGHTS_CONSISTENCY : ℝ := 0.2

noncomputable def SCORING_WEIGHTS_TIMING : ℝ := 0.1

noncomputable def SCORING_WEIGHTS_STYLE : ℝ := 0.1

/-- The difficulty strings produced by `assessChallengeDifficulty`. -/
inductive Difficulty where
  | BEGINNER
  | INTERMEDIATE
  | ADVANCED
  | EXPERT
deriving DecidableEq, Repr

/-- `DIFFICULTY_MULTIPLIERS` (part_015 lines 14-19). -/
noncomputable def DIFFICULTY_MULTIPLIERS : Difficulty → ℝ
  | .BEGINNER => 1.0
  | .INTERMEDIATE => 1.3
  | .ADVANCED => 1.6
  | .EXPERT => 2.0

/-- `PP_BASE_VALUES` (part_015 lines 21-27). -/
noncomputable def PP_MIN_PP : ℝ := 5

noncomputable def PP_MAX_PP : ℝ := 100

noncomputable def PP_DIFFICULTY_BONUS : ℝ := 50

noncomputable def PP_IMPROVEMENT_BONUS : ℝ := 25

noncomputable def PP_STREAK_BONUS : ℝ := 10

/-- `jointWeights` of the backend `calculatePoseSimilarity` (part_015
lines 41-57), in `Object.entries` iteration order (ascending integer-like
keys, which coincides with the source listing). -/
noncomputable def jointWeights : List (ℕ × ℝ) :=
  [(11, 0.14), (12, 0.14), (13, 0.12), (14, 0.12), (15, 0.12), (16, 0.12),
   (23, 0.06), (24, 0.06), (25, 0.10), (26, 0.10), (27, 0.06), (28, 0.06)]

/-- Loop body of the backend `calculatePoseSimilarity` (part_015 lines
62-83): accumulate the visibility-weighted distance similarity of one
joint into `(weightedSum, totalWeight)`; a missing joint on either side
contributes nothing. -/
noncomputable def poseSimStep (userPose referencePose : JsPose) (acc : ℝ × ℝ)
    (entry : ℕ × ℝ) : ℝ × ℝ :=
  match userPose.getD entry.1 none, referencePose.getD entry.1 none with
  | some userJoint, some refJoint =>
    let dx := userJoint.x.getD 0 - refJoint.x.getD 0
    let dy := userJoint.y.getD 0 - refJoint.y.getD 0
    let dz := userJoint.z.getD 0 - refJoint.z.getD 0
    let distance := Real.sqrt (dx * dx + dy * dy + dz * dz)
    let similarity := max 0 (1 - distance / 0.6)
    let visibility := min (jsOrNum userJoint.visibility 1) (jsOrNum refJoint.visibility 1)
    let adjustedSimilarity := similarity * max 0.5 visibility
    (acc.1 + adjustedSimilarity * entry.2, acc.2 + entry.2)
  | _, _ => acc

/-- `calculatePoseSimilarity` (part_015 lines 35-87): distance-based
weighted similarity over raw (un-normalized) landmark coordinates with
visibility weighting.  The JS null-input guard is unrepresentable (inputs
are lists); `userJoint.x` on a defined joint with undefined `x` would be
NaN in JS and is read as `0` here (no theorem relies on that case). -/
noncomputable def calculatePoseSimilarity (userPose referencePose : JsPose) : ℝ :=
  if userPose.length ≠ referencePose.length then 0
  else
    let acc := jointWeights.foldl (poseSimStep userPose referencePose) ((0 : ℝ), (0 : ℝ))
    if 0 < acc.2 then acc.1 / acc.2 else 0

/-- The `keyJoints` list of `assessChallengeDifficulty` (part_015 line 109). -/
def keyJoints : List ℕ := [11, 12, 13, 14, 15, 16, 23, 24, 25, 26]

/-- Movement between two consecutive reference poses (the inner loop of
`assessChallengeDifficulty`, lines 108-123). -/
noncomputable def poseMovement (prevPose currPose : JsPose) : ℝ :=
  keyJoints.foldl (fun acc jointIdx =>
    match prevPose.getD jointIdx none, currPose.getD jointIdx none with
    | some prev, some curr =>
      acc + Real.sqrt ((curr.x.getD 0 - prev.x.getD 0) ^ 2 +
        (curr.y.getD 0 - prev.y.getD 0) ^ 2 + (curr.z.getD 0 - prev.z.getD 0) ^ 2)
    | _, _ => acc) 0

/-- `assessChallengeDifficulty` (part_015 lines 94-147): bucket the average
inter-step movement and the rapid-change ratio into a difficulty tier. -/
noncomputable def assessChallengeDifficulty (referenceSequence : List JsPose) : Difficulty :=
  if referenceSequence.length = 0 then .BEGINNER
  else
    let pairs := referenceSequence.zip referenceSequence.tail
    let totalMovement := (pairs.map fun pq => poseMovement pq.1 pq.2).sum
    let rapidChanges := (pairs.filter fun pq => 0.3 < poseMovement pq.1 pq.2).length
    let avgMovement := totalMovement / max 1 (referenceSequence.length - 1 : ℕ)
    let rapidChangeRatio := (rapidChanges : ℝ) / max 1 (referenceSequence.length - 1 : ℕ)
    if 0.25 < avgMovement ∨ 0.4 < rapidChangeRatio then .EXPERT
    else if 0.15 < avgMovement ∨ 0.25 < rapidChangeRatio then .ADVANCED
    else if 0.08 < avgMovement ∨ 0.15 < rapidChangeRatio then .INTERMEDIATE
    else .BEGINNER

/-- `calculateConsistency` (part_015 lines 154-167): `max(0, 1 - stddev /
0.5)` over the non-null step scores, `0` when there are none. -/
noncomputable def calculateConsistency (stepScores : List (Option ℝ)) : ℝ :=
  if stepScores.length = 0 then 0
  else
    let validScores := stepScores.filterMap id
    if validScores.length = 0 then 0
    else
      let mean := validScores.sum / (validScores.length : ℝ)
      let variance := (validScores.map fun score => (score - mean) ^ 2).sum /
        (validScores.length : ℝ)
      let standardDeviation := Real.sqrt variance
      max 0 (1 - standardDeviation / 0.5)

/-- `calculateTimingAccuracy` (part_015 lines 174-179): `0.5` on no data,
else the clamped mean of the entries with `timing || 0.5` per entry. -/
noncomputable def calculateTimingAccuracy (timingData : List (Option ℝ)) : ℝ :=
  if timingData.length = 0 then 0.5
  else
    let avgTiming := (timingData.map fun timing => jsOrNum timing 0.5).sum /
      timingData.length
    max 0 (min 1 avgTiming)

/-- `calculateStyleBonus` (part_015 lines 187-201).  A `null` entry compares
as `0` in JS (`null > 0.8` is false). -/
noncomputable def calculateStyleBonus (stepScores : List (Option ℝ)) : ℝ :=
  if stepScores.length = 0 then 0
  else
    let highScoreRatio :=
      ((stepScores.filter fun score => 0.8 < (score.getD 0)).length : ℝ) / stepScores.length
    let peakScores := ((stepScores.filter fun score => 0.9 < (score.getD 0)).length : ℝ)
    let peakBonus := min 0.3 (peakScores / stepScores.length * 2)
    let styleScore := highScoreRatio * 0.7 + peakBonus
    max 0 (min 1 styleScore)

/-- Integer score breakdown returned by `calculateComprehensiveScore`. -/
structure ScoreBreakdown where
  accuracy : ℤ
  consistency : ℤ
  timing : ℤ
  style : ℤ
deriving DecidableEq, Repr

/-- Result shape of `calculateComprehensiveScore` (part_015 lines 240-255). -/
structure ComprehensiveScore where
  finalScore : ℤ
  breakdown : ScoreBreakdown
  difficulty : Difficulty
  difficultyMultiplier : ℝ
  totalSteps : ℕ
  validSteps : ℕ
  averageStepScore : ℤ

/-- `calculateComprehensiveScore` (part_015 lines 208-256).  `userPoses` is
destructured but unused by the computation. -/
noncomputable def calculateComprehensiveScore (stepScores timingData : List (Option ℝ))
    (referenceSequence : List JsPose) : ComprehensiveScore :=
  let validStepScores := stepScores.filterMap id
  let baseAccuracy := if 0 < validStepScores.length
    then validStepScores.sum / validStepScores.length else 0
  let accuracy := baseAccuracy
  let consistency := calculateConsistency stepScores
  let timing := calculateTimingAccuracy timingData
  let style := calculateStyleBonus stepScores
  let finalScore := accuracy * SCORING_WEIGHTS_ACCURACY +
    consistency * SCORING_WEIGHTS_CONSISTENCY +
    timing * SCORING_WEIGHTS_TIMING +
    style * SCORING_WEIGHTS_STYLE
  let difficulty := assessChallengeDifficulty referenceSequence
  let difficultyMultiplier := DIFFICULTY_MULTIPLIERS difficulty
  let adjustedScore := min 1.0 (finalScore * difficultyMultiplier)
  { finalScore := jsRound (adjustedScore * 100)
    breakdown :=
      { accuracy := jsRound (accuracy * 100)
        consistency := jsRound (consistency * 100)
        timing := jsRound (timing * 100)
        style := jsRound (style * 100) }
    difficulty := difficulty
    difficultyMultiplier := difficultyMultiplier
    totalSteps := stepScores.length
    validSteps := validStepScores.length
    averageStepScore := jsRound (baseAccuracy * 100) }

/-- Result shape of `calculatePerformancePoints` (part_015 lines 307-321). -/
structure PPResult where
  totalPP : ℤ
  basePP : ℤ
  difficultyBonus : ℤ
  improvementBonus : ℤ
  streakBonus : ℤ
  excellenceBonus : ℝ
  isPersonalBest : Bool
  scoreImprovement : ℝ

/-- `calculatePerformancePoints` (part_015 lines 264-322).  `finalScore` is
the percent score from `calculateComprehensiveScore` (a JS number here, so
modelled as a real), `personalBest` and `currentStreak` come from the
player history with defaults `0`. -/
noncomputable def calculatePerformancePoints (finalScore : ℝ) (difficulty : Difficulty)
    (personalBest currentStreak : ℝ) : PPResult :=
  let basePP := max PP_MIN_PP (finalScore / 100 * PP_MAX_PP)
  let difficultyBonus : ℝ :=
    match difficulty with
    | .EXPERT => PP_DIFFICULTY_BONUS
    | .ADVANCED => PP_DIFFICULTY_BONUS * 0.7
    | .INTERMEDIATE => PP_DIFFICULTY_BONUS * 0.4
    | _ => 0
  let improvementBonus := if personalBest < finalScore
    then PP_IMPROVEMENT_BONUS * ((finalScore - personalBest) / 100) else 0
  let streakBonus := if 3 ≤ currentStreak
    then PP_STREAK_BONUS * (min 3 ⌊currentStreak / 3⌋ : ℤ) else 0
  let excellenceBonus : ℝ := if 95 ≤ finalScore then 15
    else if 90 ≤ finalScore then 10
    else if 85 ≤ finalScore then 5 else 0
  let totalPP := jsRound (basePP + difficultyBonus + improvementBonus +
    streakBonus + excellenceBonus)
  { totalPP := totalPP
    basePP := jsRound basePP
    difficultyBonus := jsRound difficultyBonus
    improvementBonus := jsRound improvementBonus
    streakBonus := jsRound streakBonus
    excellenceBonus := excellenceBonus
    isPersonalBest := decide (personalBest < finalScore)
    scoreImprovement := finalScore - personalBest }

end Scoring

/-!  Proof infrastructure: array-write lemmas, fold helpers, and
characterizations of the embedded functions on well-formed inputs.  -/

/-- A JS pose with no undefined entries. -/
def CompletePose (p : JsPose) : Prop := ∀ o ∈ p, o.isSome

/-- The numeric triple a defined landmark maps to in `landmarksToArray`
(the `none` branch is never reached on complete poses). -/
def toVec : Option Landmark → Vec3
  | some lm => ⟨lm.x.getD 0, lm.y.getD 0, lm.z.getD 0⟩
  | none => ⟨0, 0, 0⟩

/-- Coordinate triples of a pose, as `landmarksToArray` produces them. -/
def lmArr (p : JsPose) : List Vec3 := p.map toVec

namespace PoseUtil

/-- The hip midpoint used by `normalizeLandmarks` (landmark indices 23/24). -/
noncomputable def hipMid (arr : List Vec3) : Vec3 :=
  ⟨((arr.getD 23 ⟨0, 0, 0⟩).x + (arr.getD 24 ⟨0, 0, 0⟩).x) / 2,
   ((arr.getD 23 ⟨0, 0, 0⟩).y + (arr.getD 24 ⟨0, 0, 0⟩).y) / 2,
   ((arr.getD 23 ⟨0, 0, 0⟩).z + (arr.getD 24 ⟨0, 0, 0⟩).z) / 2⟩

/-- The shoulder midpoint used by `normalizeLandmarks` (indices 11/12). -/
noncomputable def shoulderMid (arr : List Vec3) : Vec3 :=
  ⟨((arr.getD 11 ⟨0, 0, 0⟩).x + (arr.getD 12 ⟨0, 0, 0⟩).x) / 2,
   ((arr.getD 11 ⟨0, 0, 0⟩).y + (arr.getD 12 ⟨0, 0, 0⟩).y) / 2,
   ((arr.getD 11 ⟨0, 0, 0⟩).z + (arr.getD 12 ⟨0, 0, 0⟩).z) / 2⟩

/-- Euclidean distance from shoulder midpoint to hip midpoint. -/
noncomputable def hipShoulderDist (arr : List Vec3) : ℝ :=
  Real.sqrt (((shoulderMid arr).x - (hipMid arr).x) ^ 2 +
    ((shoulderMid arr).y - (hipMid arr).y) ^ 2 +
    ((shoulderMid arr).z - (hipMid arr).z) ^ 2)

/-- The divisor `normalizeLandmarks` actually uses: `Math.hypot(...) || 1e-6`
substitutes `1e-6` only when the distance is exactly zero. -/
noncomputable def normScale (arr : List Vec3) : ℝ :=
  if hipShoulderDist arr = 0 then 1e-6 else hipShoulderDist arr

/-- A pose whose entries are all defined with visibility exactly `1`. -/
def FullyVisible (p : JsPose) : Prop :=
  ∀ o ∈ p, ∃ lm, o = some lm ∧ lm.visibility = some 1

/-- The joint angles computed from a coordinate array (the body of
`poseToAngles` after `landmarksToArray`). -/
noncomputable def anglesOf (arr : List Vec3) : JointAngles :=
  { left_knee := angleBetweenPoints arr[23]? arr[25]? arr[27]?
    right_knee := angleBetweenPoints arr[24]? arr[26]? arr[28]?
    left_hip := angleBetweenPoints arr[11]? arr[23]? arr[25]?
    right_hip := angleBetweenPoints arr[12]? arr[24]? arr[26]?
    left_elbow := angleBetweenPoints arr[11]? arr[13]? arr[15]?
    right_elbow := angleBetweenPoints arr[12]? arr[14]? arr[16]?
    left_shoulder := angleBetweenPoints arr[13]? arr[11]? arr[23]?
    right_shoulder := angleBetweenPoints arr[14]? arr[12]? arr[24]? }

/-- A 33-landmark pose with every landmark at the origin, fully visible:
well-formed per the data model, but all eight joint angles are `null`
(zero-length rays). -/
noncomputable def zeroPose : JsPose :=
  List.replicate 33 (some ⟨some 0, some 0, some 0, some 1⟩)

/-- A concrete fully-visible 33-landmark pose with all landmarks on the
x-axis at distinct positions, so every joint angle is defined. -/
noncomputable def wpose : JsPose :=
  (List.range 33).map fun i : ℕ => some ⟨some (i : ℝ), some 0, some 0, some 1⟩

/-- A coordinate array (length 25) whose shoulder midpoint sits `5e-7`
away from the hip midpoint: nonzero, but smaller than `1e-6`. -/
noncomputable def cex9Arr : List Vec3 :=
  (List.range 25).map fun i : ℕ => if i = 11 ∨ i = 12 then ⟨5e-7, 0, 0⟩ else ⟨0, 0, 0⟩

/-- A 33-landmark pose identical in coordinates to `zeroPose` but with the
nose (index 0) at visibility `0.2`: a well-formed input (all coordinates
and visibilities in range). -/
noncomputable def pVis02 : JsPose :=
  some ⟨some 0, some 0, some 0, some 0.2⟩ ::
    List.replicate 32 (some ⟨some 0, some 0, some 0, some 1⟩)

/-- The zero pose translated by a unit offset along x (fully visible). -/
noncomputable def onePose : JsPose :=
  List.replicate 33 (some ⟨some 1, some 0, some 0, some 1⟩)

/-- Translate every defined landmark of a pose by a constant x offset. -/
noncomputable def translateX (p : JsPose) (d : ℝ) : JsPose :=
  p.map (Option.map fun lm => ⟨some (lm.x.getD 0 + d), lm.y, lm.z, lm.visibility⟩)

end PoseUtil

theorem jsSetExtend_getD_self (l : List (Option ℝ)) (i : ℕ) (v : ℝ) :
    (jsSetExtend l i v).getD i none = some v := by
  unfold jsSetExtend
  split
  · next h => simp [List.getD_eq_getElem?_getD, List.getElem?_set_self h]
  · next h =>
    have hlen : (l ++ List.replicate (i - l.length) none).length = i := by
      simp only [List.length_append, List.length_replicate]; omega
    rw [List.getD_eq_getElem?_getD, List.getElem?_append_right hlen.le, hlen,
      Nat.sub_self]
    rfl

theorem jsSetExtend_getD_ne (l : List (Option ℝ)) (i j : ℕ) (v : ℝ) (hij : i ≠ j) :
    (jsSetExtend l i v).getD j none = l.getD j none := by
  unfold jsSetExtend
  split
  · next h => simp [List.getD_eq_getElem?_getD, List.getElem?_set_ne hij]
  · next h =>
    push_neg at h
    have hlen : (l ++ List.replicate (i - l.length) none).length = i := by
      simp only [List.length_append, List.length_replicate]; omega
    rcases lt_or_le j l.length with hj | hj
    · rw [List.getD_eq_getElem?_getD, List.getElem?_append_left (by rw [hlen]; omega),
        List.getElem?_append_left hj, ← List.getD_eq_getElem?_getD]
    · rw [List.getD_eq_getElem?_getD (l := l), List.getElem?_eq_none hj,
        List.getD_eq_getElem?_getD]
      rcases lt_or_le j i with hji | hji
      · rw [List.getElem?_append_left (by rw [hlen]; omega),
          List.getElem?_append_right hj, List.getElem?_replicate, if_pos (by omega)]
        rfl
      · have hb : ((l ++ List.replicate (i - l.length) none) ++ [some v]).length ≤ j := by
          rw [List.length_append, hlen]
          simp only [List.length_cons, List.length_nil]
          omega
        rw [List.getElem?_eq_none hb]

theorem jsSetExtend_length (l : List (Option ℝ)) (i : ℕ) (v : ℝ) :
    (jsSetExtend l i v).length = max l.length (i + 1) := by
  unfold jsSetExtend
  split <;> simp [List.length_set, List.length_append, List.length_replicate] <;> omega

/-- Fold a list while preserving an invariant. -/
theorem foldl_preserve {α β : Type _} {g : β → α → β} {P : β → Prop} {l : List α}
    (h : ∀ s a, a ∈ l → P s → P (g s a)) {s : β} (hs : P s) : P (l.foldl g s) := by
  induction l generalizing s with
  | nil => exact hs
  | cons a t ih =>
    exact ih (fun s b hb => h s b (List.mem_cons_of_mem a hb)) (h s a (List.mem_cons_self a t) hs)

/-- Reading index `j` after folding over `range n` when only step `j` can
write index `j`: the result is step `j` applied to the partial fold. -/
theorem foldl_range_getD {g : List (Option ℝ) → ℕ → List (Option ℝ)} {n j : ℕ}
    (hj : j < n)
    (hother : ∀ s i, i ≠ j → (g s i).getD j none = s.getD j none) (s0 : List (Option ℝ)) :
    ((List.range n).foldl g s0).getD j none =
      (g ((List.range j).foldl g s0) j).getD j none := by
  have hsplit : n = (j + 1) + (n - (j + 1)) := by omega
  rw [hsplit, List.range_add, List.foldl_append]
  have tail : ∀ (s : List (Option ℝ)),
      (((List.range (n - (j + 1))).map (j + 1 + ·)).foldl g s).getD j none =
        s.getD j none := by
    intro s
    refine foldl_preserve (P := fun t : List (Option ℝ) => t.getD j none = s.getD j none) ?_ rfl
    intro t a ha ht
    rcases List.mem_map.mp ha with ⟨k, _, rfl⟩
    rw [hother t _ (by omega), ht]
  rw [tail, List.range_succ, List.foldl_append]
  rfl

/-- Reading an index that no step of a `range` fold writes. -/
theorem foldl_range_getD_untouched {g : List (Option ℝ) → ℕ → List (Option ℝ)} {n j : ℕ}
    (hother : ∀ s i, i ≠ j → (g s i).getD j none = s.getD j none) (hj : n ≤ j)
    (s0 : List (Option ℝ)) :
    ((List.range n).foldl g s0).getD j none = s0.getD j none := by
  refine foldl_preserve (P := fun t : List (Option ℝ) => t.getD j none = s0.getD j none) ?_ rfl
  intro t a ha ht
  rw [hother t a (by rcases List.mem_range.mp ha with h; omega), ht]

namespace PoseUtil

theorem landmarksToArray_complete {p : JsPose} (h : CompletePose p) :
    landmarksToArray p = .ok (lmArr p) := by
  induction p with
  | nil => rfl
  | cons o t ih =>
    rcases o with _ | lm
    · exact absurd (h none (List.mem_cons_self none t)) (by simp)
    · have := ih fun x hx => h x (List.mem_cons_of_mem _ hx)
      simp [landmarksToArray, this, lmArr, toVec]

theorem normalizeLandmarks_eq {arr : List Vec3} (h : 25 ≤ arr.length) :
    normalizeLandmarks arr = .ok (arr.map fun p =>
      ⟨(p.x - (hipMid arr).x) / normScale arr, (p.y - (hipMid arr).y) / normScale arr,
       (p.z - (hipMid arr).z) / normScale arr⟩) := by
  have h23 : arr[23]? = some (arr.getD 23 ⟨0, 0, 0⟩) := by
    rw [List.getD_eq_getElem?_getD, List.getElem?_eq_getElem (by omega)]; rfl
  have h24 : arr[24]? = some (arr.getD 24 ⟨0, 0, 0⟩) := by
    rw [List.getD_eq_getElem?_getD, List.getElem?_eq_getElem (by omega)]; rfl
  have h11 : arr[11]? = some (arr.getD 11 ⟨0, 0, 0⟩) := by
    rw [List.getD_eq_getElem?_getD, List.getElem?_eq_getElem (by omega)]; rfl
  have h12 : arr[12]? = some (arr.getD 12 ⟨0, 0, 0⟩) := by
    rw [List.getD_eq_getElem?_getD, List.getElem?_eq_getElem (by omega)]; rfl
  unfold normalizeLandmarks
  rw [if_neg (by omega), h23, h24, h11, h12]
  rfl

end PoseUtil

namespace PoseUtil

theorem FullyVisible.completePose {p : JsPose} (h : FullyVisible p) : CompletePose p :=
  fun o ho => by rcases h o ho with ⟨lm, rfl, -⟩; rfl

theorem visOf_eq_one {p : JsPose} (h : FullyVisible p) (idx : ℕ) : visOf p idx = 1 := by
  unfold visOf
  rcases hv : p.getD idx none with _ | lm
  · rfl
  · rw [List.getD_eq_getElem?_getD] at hv
    rcases he : p[idx]? with _ | o
    · rw [he] at hv; simp at hv
    · rw [he] at hv
      simp only [Option.getD_some] at hv
      subst hv
      rcases h _ (List.getElem?_mem he) with ⟨lm2, heq, hvis⟩
      obtain rfl : lm = lm2 := by injection heq
      show lm.visibility.getD 1 = 1
      rw [hvis]
      rfl

theorem poseToAngles_complete {p : JsPose} (h : CompletePose p) :
    poseToAngles p = .ok (anglesOf (lmArr p)) := by
  unfold poseToAngles
  rcases p with _ | ⟨o, t⟩
  · rfl
  · rw [if_neg (by simp), landmarksToArray_complete h]
    rfl

theorem assignAngleSims_getD_not_mapped {lmA lmB : JsPose} {aA aB : JointAngles}
    {tol visT : ℝ} {s : List (Option ℝ)} {j : ℕ}
    (h25 : j ≠ 25) (h26 : j ≠ 26) (h23 : j ≠ 23) (h24 : j ≠ 24)
    (h13 : j ≠ 13) (h14 : j ≠ 14) (h11 : j ≠ 11) (h12 : j ≠ 12) :
    (assignAngleSims lmA lmB aA aB tol visT s).getD j none = s.getD j none := by
  simp only [assignAngleSims, angleMapping, List.foldl_cons, List.foldl_nil]
  rw [jsSetExtend_getD_ne _ _ _ _ (Ne.symm h12), jsSetExtend_getD_ne _ _ _ _ (Ne.symm h11),
    jsSetExtend_getD_ne _ _ _ _ (Ne.symm h14), jsSetExtend_getD_ne _ _ _ _ (Ne.symm h13),
    jsSetExtend_getD_ne _ _ _ _ (Ne.symm h24), jsSetExtend_getD_ne _ _ _ _ (Ne.symm h23),
    jsSetExtend_getD_ne _ _ _ _ (Ne.symm h26), jsSetExtend_getD_ne _ _ _ _ (Ne.symm h25)]

theorem assignAngleSims_getD_mapped (lmA lmB : JsPose) (aA aB : JointAngles)
    (tol visT : ℝ) (s : List (Option ℝ)) :
    ((assignAngleSims lmA lmB aA aB tol visT s).getD 25 none
        = some (angleJointVal lmA lmB aA aB tol visT JointAngles.left_knee 25)) ∧
    ((assignAngleSims lmA lmB aA aB tol visT s).getD 26 none
        = some (angleJointVal lmA lmB aA aB tol visT JointAngles.right_knee 26)) ∧
    ((assignAngleSims lmA lmB aA aB tol visT s).getD 23 none
        = some (angleJointVal lmA lmB aA aB tol visT JointAngles.left_hip 23)) ∧
    ((assignAngleSims lmA lmB aA aB tol visT s).getD 24 none
        = some (angleJointVal lmA lmB aA aB tol visT JointAngles.right_hip 24)) ∧
    ((assignAngleSims lmA lmB aA aB tol visT s).getD 13 none
        = some (angleJointVal lmA lmB aA aB tol visT JointAngles.left_elbow 13)) ∧
    ((assignAngleSims lmA lmB aA aB tol visT s).getD 14 none
        = some (angleJointVal lmA lmB aA aB tol visT JointAngles.right_elbow 14)) ∧
    ((assignAngleSims lmA lmB aA aB tol visT s).getD 11 none
        = some (angleJointVal lmA lmB aA aB tol visT JointAngles.left_shoulder 11)) ∧
    ((assignAngleSims lmA lmB aA aB tol visT s).getD 12 none
        = some (angleJointVal lmA lmB aA aB tol visT JointAngles.right_shoulder 12)) := by
  refine ⟨?_, ?_, ?_, ?_, ?_, ?_, ?_, ?_⟩ <;>
    simp only [assignAngleSims, angleMapping, List.foldl_cons, List.foldl_nil] <;>
    simp [jsSetExtend_getD_ne, jsSetExtend_getD_self, -List.getD_eq_getElem?_getD]

theorem assignDistFallback_getD (lmA lmB : JsPose) (nA nB : List Vec3)
    (dT vT : ℝ) (s : List (Option ℝ)) {j : ℕ} (hj : j < s.length) :
    (assignDistFallback lmA lmB nA nB dT vT s).getD j none =
      some ((s.getD j none).getD (distFallbackVal lmA lmB nA nB dT vT j)) := by
  have hother : ∀ (t : List (Option ℝ)) (i : ℕ), i ≠ j →
      ((fun (sims : List (Option ℝ)) (i : ℕ) =>
        match sims.getD i none with
        | some _ => sims
        | none => jsSetExtend sims i
            (distFallbackVal lmA lmB nA nB dT vT i)) t i).getD j none
        = t.getD j none := by
    intro t i hij
    rcases hv : t.getD i none with _ | v <;> simp only [hv]
    exact jsSetExtend_getD_ne _ _ _ _ hij
  unfold assignDistFallback
  rw [foldl_range_getD hj hother, foldl_range_getD_untouched hother le_rfl]
  rcases hv : s.getD j none with _ | v <;> simp only [hv]
  · rw [jsSetExtend_getD_self]
    rfl
  · rw [foldl_range_getD_untouched hother le_rfl, hv]
    rfl

theorem assignAngleSims_length_33 (lmA lmB : JsPose) (aA aB : JointAngles)
    (tol visT : ℝ) :
    (assignAngleSims lmA lmB aA aB tol visT (List.replicate 33 none)).length = 33 := by
  simp [assignAngleSims, angleMapping, List.foldl_cons, List.foldl_nil, jsSetExtend_length]

end PoseUtil

theorem exceptBind_ok {α β : Type} (a : α) (f : α → Except Unit β) :
    (Except.ok a >>= f) = f a := rfl

namespace PoseUtil

theorem lmArr_length (p : JsPose) : (lmArr p).length = p.length := by
  simp [lmArr]

theorem normalizeLandmarks_ok_of_len {arr : List Vec3}
    (h : arr.length = 0 ∨ 25 ≤ arr.length) :
    ∃ n, normalizeLandmarks arr = .ok n ∧ n.length = arr.length := by
  rcases h with h | h
  · refine ⟨[], ?_, by simp [h]⟩
    unfold normalizeLandmarks
    rw [if_pos h]
  · refine ⟨_, normalizeLandmarks_eq h, ?_⟩
    simp

theorem perJointAngleSimilarity_eq {pA pB : JsPose} (hA : CompletePose pA)
    (hB : CompletePose pB) {nA nB : List Vec3}
    (hnA : normalizeLandmarks (lmArr pA) = .ok nA)
    (hnB : normalizeLandmarks (lmArr pB) = .ok nB) (opts : SimOpts) :
    perJointAngleSimilarity pA pB opts = .ok (assignDistFallback pA pB nA nB
      (jsOrNum opts.distTolerance 0.6) (opts.visibilityThreshold.getD 0.25)
      (assignAngleSims pA pB (anglesOf (lmArr pA)) (anglesOf (lmArr pB))
        (jsOrNum opts.angleTolerance 25) (opts.visibilityThreshold.getD 0.25)
        (List.replicate pA.length none))) := by
  unfold perJointAngleSimilarity
  rw [poseToAngles_complete hA, poseToAngles_complete hB,
    landmarksToArray_complete hA, landmarksToArray_complete hB]
  simp only [exceptBind_ok]
  rw [hnA, hnB]
  rfl

theorem perJointAngleSimilarity_ok {pA pB : JsPose} (hA : CompletePose pA)
    (hB : CompletePose pB) (hlenA : pA.length = 0 ∨ 25 ≤ pA.length)
    (hlenB : pB.length = 0 ∨ 25 ≤ pB.length) (opts : SimOpts) :
    ∃ sims, perJointAngleSimilarity pA pB opts = .ok sims := by
  obtain ⟨nA, hnA, -⟩ := normalizeLandmarks_ok_of_len
    (by rw [lmArr_length]; exact hlenA)
  obtain ⟨nB, hnB, -⟩ := normalizeLandmarks_ok_of_len
    (by rw [lmArr_length]; exact hlenB)
  exact ⟨_, perJointAngleSimilarity_eq hA hB hnA hnB opts⟩

theorem shoulderSpreadSimilarity_ok {pA pB : JsPose} (hA : CompletePose pA)
    (hB : CompletePose pB) (hlenA : pA.length = 0 ∨ 25 ≤ pA.length)
    (hlenB : pB.length = 0 ∨ 25 ≤ pB.length) (tol : ℝ) :
    ∃ v, shoulderSpreadSimilarity pA pB tol = .ok v := by
  obtain ⟨nA, hnA, -⟩ := normalizeLandmarks_ok_of_len
    (by rw [lmArr_length]; exact hlenA)
  obtain ⟨nB, hnB, -⟩ := normalizeLandmarks_ok_of_len
    (by rw [lmArr_length]; exact hlenB)
  unfold shoulderSpreadSimilarity
  rw [landmarksToArray_complete hA, landmarksToArray_complete hB]
  simp only [exceptBind_ok]
  rw [hnA, hnB]
  simp only [exceptBind_ok]
  split
  · exact ⟨0, rfl⟩
  · rcases nA[11]? with _ | a11 <;> rcases nA[12]? with _ | a12 <;>
      rcases nB[11]? with _ | b11 <;> rcases nB[12]? with _ | b12 <;>
      exact ⟨_, rfl⟩

theorem shoulderSpreadSimilarity_self {p : JsPose} (h : CompletePose p)
    {n : List Vec3} (hn : normalizeLandmarks (lmArr p) = .ok n)
    (h25 : 25 ≤ n.length) (tol : ℝ) :
    shoulderSpreadSimilarity p p tol = .ok 1 := by
  unfold shoulderSpreadSimilarity
  rw [landmarksToArray_complete h]
  simp only [exceptBind_ok]
  rw [hn]
  simp only [exceptBind_ok]
  rw [if_neg (by omega)]
  have h11 : n[11]? = some (n.getD 11 ⟨0, 0, 0⟩) := by
    rw [List.getD_eq_getElem?_getD, List.getElem?_eq_getElem (by omega)]; rfl
  have h12 : n[12]? = some (n.getD 12 ⟨0, 0, 0⟩) := by
    rw [List.getD_eq_getElem?_getD, List.getElem?_eq_getElem (by omega)]; rfl
  rw [h11, h12]
  show Except.ok (max 0 (min 1 (1 - |_ - _| / tol))) = Except.ok 1
  rw [sub_self, abs_zero, zero_div, sub_zero]
  norm_num

theorem poseSimilarity_ok {pA pB : JsPose} (hA : CompletePose pA)
    (hB : CompletePose pB) (hlenA : pA.length = 0 ∨ 25 ≤ pA.length)
    (hlenB : pB.length = 0 ∨ 25 ≤ pB.length) :
    ∃ v, poseSimilarity pA pB = .ok v := by
  obtain ⟨nA, hnA, -⟩ := normalizeLandmarks_ok_of_len
    (by rw [lmArr_length]; exact hlenA)
  obtain ⟨nB, hnB, -⟩ := normalizeLandmarks_ok_of_len
    (by rw [lmArr_length]; exact hlenB)
  unfold poseSimilarity
  rw [landmarksToArray_complete hA, landmarksToArray_complete hB]
  simp only [exceptBind_ok]
  rw [hnA, hnB]
  simp only [exceptBind_ok]
  split
  · exact ⟨0, rfl⟩
  · exact ⟨_, rfl⟩

end PoseUtil

theorem replicate_getD_none (n j : ℕ) :
    (List.replicate n (none : Option ℝ)).getD j none = none := by
  rw [List.getD_eq_getElem?_getD, List.getElem?_replicate]
  split <;> rfl

namespace PoseUtil

theorem angleSimilarity_self {o : Option ℝ} (ho : o.isSome) (tol : ℝ) :
    angleSimilarity o o tol = 1 := by
  rcases o with _ | a
  · simp at ho
  · show max 0 (1 - |a - a| / tol) = 1
    rw [sub_self, abs_zero, zero_div, sub_zero]
    norm_num

theorem angleJointVal_self {p : JsPose} (h : FullyVisible p) (aA : JointAngles)
    (tol visT : ℝ) (hvt : visT ≤ 1) (g : JointAngles → Option ℝ) (idx : ℕ) :
    angleJointVal p p aA aA tol visT g idx =
      max 0.2 (min 1 (angleSimilarity (g aA) (g aA) tol)) := by
  simp only [angleJointVal, visOf_eq_one h]
  rw [if_neg (by norm_num; linarith), mul_one]

theorem distFallbackVal_self {p : JsPose} (h : FullyVisible p) {n : List Vec3}
    {j : ℕ} {a : Vec3} (hj : n[j]? = some a) (dT visT : ℝ) (hvt : visT ≤ 1) :
    distFallbackVal p p n n dT visT j = 1 := by
  unfold distFallbackVal
  rw [hj]
  show (if visOf p j < visT ∨ visOf p j < visT then _ else
    max 0 (min 1 (1 - Real.sqrt ((a.x - a.x) ^ 2 + (a.y - a.y) ^ 2 + (a.z - a.z) ^ 2) / dT))) = 1
  rw [if_neg (by rw [visOf_eq_one h]; push_neg; constructor <;> linarith)]
  rw [sub_self, sub_self, sub_self]
  norm_num

end PoseUtil

namespace Hook

open PoseUtil

theorem aggregateSimilarityV1_eq {p q : JsPose} {sims : List (Option ℝ)} {sp : ℝ}
    (hsims : perJointAngleSimilarity p q ⟨some 30, some 0.8, some 0.2⟩ = .ok sims)
    (hsp : shoulderSpreadSimilarity p q 1.0 = .ok sp) :
    aggregateSimilarityV1 p q =
      .ok (weightedAggregate sims sp weightMapV1 shoulderSpreadWeightV1 0.5) := by
  unfold aggregateSimilarityV1
  rw [hsims]
  simp only [exceptBind_ok]
  rw [hsp]
  rfl

theorem weightedAggregateV1_compute {sims : List (Option ℝ)}
    {v11 v12 v13 v14 v15 v16 v23 v24 v25 v26 v27 v28 : ℝ}
    (h11 : sims.getD 11 none = some v11) (h12 : sims.getD 12 none = some v12)
    (h13 : sims.getD 13 none = some v13) (h14 : sims.getD 14 none = some v14)
    (h15 : sims.getD 15 none = some v15) (h16 : sims.getD 16 none = some v16)
    (h23 : sims.getD 23 none = some v23) (h24 : sims.getD 24 none = some v24)
    (h25 : sims.getD 25 none = some v25) (h26 : sims.getD 26 none = some v26)
    (h27 : sims.getD 27 none = some v27) (h28 : sims.getD 28 none = some v28)
    (sp : ℝ) :
    weightedAggregate sims sp weightMapV1 shoulderSpreadWeightV1 0.5 =
      (v11 * 0.12 + v12 * 0.12 + v13 * 0.11 + v14 * 0.11 + v15 * 0.09 + v16 * 0.09 +
       v23 * 0.10 + v24 * 0.10 + v25 * 0.12 + v26 * 0.12 + v27 * 0.08 + v28 * 0.08 +
       sp * 0.06) / 1.3 := by
  unfold weightedAggregate weightMapV1 shoulderSpreadWeightV1
  simp only [List.map_cons, List.map_nil, List.sum_cons, List.sum_nil]
  rw [h11, h12, h13, h14, h15, h16, h23, h24, h25, h26, h27, h28]
  simp only [Option.getD_some]
  rw [if_neg (by norm_num)]
  ring_nf

end Hook

theorem getElem?_eq_some_getD {α : Type _} {n : List α} {j : ℕ} (d : α)
    (hj : j < n.length) : n[j]? = some (n.getD j d) := by
  rw [List.getD_eq_getElem?_getD, List.getElem?_eq_getElem hj]
  rfl

namespace PoseUtil

theorem perJointAngleSimilarityV1_eq {pA pB : JsPose} (hA : CompletePose pA)
    (hB : CompletePose pB) {nA nB : List Vec3}
    (hnA : normalizeLandmarks (lmArr pA) = .ok nA)
    (hnB : normalizeLandmarks (lmArr pB) = .ok nB) :
    perJointAngleSimilarity pA pB ⟨some 30, some 0.8, some 0.2⟩ =
      .ok (assignDistFallback pA pB nA nB 0.8 0.2
        (assignAngleSims pA pB (anglesOf (lmArr pA)) (anglesOf (lmArr pB)) 30 0.2
          (List.replicate pA.length none))) := by
  have heq := perJointAngleSimilarity_eq hA hB hnA hnB ⟨some 30, some 0.8, some 0.2⟩
  have ho1 : jsOrNum (SimOpts.angleTolerance ⟨some 30, some 0.8, some 0.2⟩) 25
      = (30 : ℝ) := by norm_num [jsOrNum]
  have ho2 : jsOrNum (SimOpts.distTolerance ⟨some 30, some 0.8, some 0.2⟩) 0.6
      = (0.8 : ℝ) := by norm_num [jsOrNum]
  have ho3 : (SimOpts.visibilityThreshold ⟨some 30, some 0.8, some 0.2⟩).getD 0.25
      = (0.2 : ℝ) := rfl
  rw [ho1, ho2, ho3] at heq
  exact heq

/-- Per-joint similarities of a fully visible 33-landmark pose against
itself, with the options of the first `usePoseDetection` variant: the eight
mapped joints carry their angle self-similarity (which is `1` when the
angle is defined and `0.2` when it is `null`), the remaining weighted
joints carry `1`. -/
theorem perJointV1_self_getD {p : JsPose} (h : FullyVisible p) (hlen : p.length = 33) :
    ∃ sims n, normalizeLandmarks (lmArr p) = .ok n ∧ n.length = 33 ∧
      perJointAngleSimilarity p p ⟨some 30, some 0.8, some 0.2⟩ = .ok sims ∧
      (sims.getD 25 none = some (max 0.2 (min 1 (angleSimilarity
        (anglesOf (lmArr p)).left_knee (anglesOf (lmArr p)).left_knee 30))) ∧
       sims.getD 26 none = some (max 0.2 (min 1 (angleSimilarity
        (anglesOf (lmArr p)).right_knee (anglesOf (lmArr p)).right_knee 30))) ∧
       sims.getD 23 none = some (max 0.2 (min 1 (angleSimilarity
        (anglesOf (lmArr p)).left_hip (anglesOf (lmArr p)).left_hip 30))) ∧
       sims.getD 24 none = some (max 0.2 (min 1 (angleSimilarity
        (anglesOf (lmArr p)).right_hip (anglesOf (lmArr p)).right_hip 30))) ∧
       sims.getD 13 none = some (max 0.2 (min 1 (angleSimilarity
        (anglesOf (lmArr p)).left_elbow (anglesOf (lmArr p)).left_elbow 30))) ∧
       sims.getD 14 none = some (max 0.2 (min 1 (angleSimilarity
        (anglesOf (lmArr p)).right_elbow (anglesOf (lmArr p)).right_elbow 30))) ∧
       sims.getD 11 none = some (max 0.2 (min 1 (angleSimilarity
        (anglesOf (lmArr p)).left_shoulder (anglesOf (lmArr p)).left_shoulder 30))) ∧
       sims.getD 12 none = some (max 0.2 (min 1 (angleSimilarity
        (anglesOf (lmArr p)).right_shoulder (anglesOf (lmArr p)).right_shoulder 30)))) ∧
      (sims.getD 15 none = some 1 ∧ sims.getD 16 none = some 1 ∧
       sims.getD 27 none = some 1 ∧ sims.getD 28 none = some 1) := by
  have hc := h.completePose
  obtain ⟨n, hn, hnlen⟩ := @normalizeLandmarks_ok_of_len (lmArr p)
    (by rw [lmArr_length, hlen]; right; omega)
  have heq := perJointAngleSimilarityV1_eq hc hc hn hn
  rw [hlen] at heq
  have hnlen33 : n.length = 33 := by rw [hnlen, lmArr_length, hlen]
  have hs1len := assignAngleSims_length_33 p p (anglesOf (lmArr p)) (anglesOf (lmArr p)) 30 0.2
  have hmapped := assignAngleSims_getD_mapped p p (anglesOf (lmArr p)) (anglesOf (lmArr p))
    30 0.2 (List.replicate 33 none)
  have hAJ := fun g idx => angleJointVal_self h (anglesOf (lmArr p)) 30 0.2 (by norm_num) g idx
  refine ⟨_, n, hn, hnlen33, heq, ⟨?_, ?_, ?_, ?_, ?_, ?_, ?_, ?_⟩, ?_, ?_, ?_, ?_⟩
  · rw [assignDistFallback_getD p p n n 0.8 0.2 _ (by rw [hs1len]; omega), hmapped.1,
      Option.getD_some, hAJ]
  · rw [assignDistFallback_getD p p n n 0.8 0.2 _ (by rw [hs1len]; omega), hmapped.2.1,
      Option.getD_some, hAJ]
  · rw [assignDistFallback_getD p p n n 0.8 0.2 _ (by rw [hs1len]; omega), hmapped.2.2.1,
      Option.getD_some, hAJ]
  · rw [assignDistFallback_getD p p n n 0.8 0.2 _ (by rw [hs1len]; omega), hmapped.2.2.2.1,
      Option.getD_some, hAJ]
  · rw [assignDistFallback_getD p p n n 0.8 0.2 _ (by rw [hs1len]; omega),
      hmapped.2.2.2.2.1, Option.getD_some, hAJ]
  · rw [assignDistFallback_getD p p n n 0.8 0.2 _ (by rw [hs1len]; omega),
      hmapped.2.2.2.2.2.1, Option.getD_some, hAJ]
  · rw [assignDistFallback_getD p p n n 0.8 0.2 _ (by rw [hs1len]; omega),
      hmapped.2.2.2.2.2.2.1, Option.getD_some, hAJ]
  · rw [assignDistFallback_getD p p n n 0.8 0.2 _ (by rw [hs1len]; omega),
      hmapped.2.2.2.2.2.2.2, Option.getD_some, hAJ]
  · rw [assignDistFallback_getD p p n n 0.8 0.2 _ (by rw [hs1len]; omega),
      assignAngleSims_getD_not_mapped (by omega) (by omega) (by omega) (by omega)
        (by omega) (by omega) (by omega) (by omega),
      replicate_getD_none, Option.getD_none,
      distFallbackVal_self h (getElem?_eq_some_getD ⟨0, 0, 0⟩ (by omega)) 0.8 0.2 (by norm_num)]
  · rw [assignDistFallback_getD p p n n 0.8 0.2 _ (by rw [hs1len]; omega),
      assignAngleSims_getD_not_mapped (by omega) (by omega) (by omega) (by omega)
        (by omega) (by omega) (by omega) (by omega),
      replicate_getD_none, Option.getD_none,
      distFallbackVal_self h (getElem?_eq_some_getD ⟨0, 0, 0⟩ (by omega)) 0.8 0.2 (by norm_num)]
  · rw [assignDistFallback_getD p p n n 0.8 0.2 _ (by rw [hs1len]; omega),
      assignAngleSims_getD_not_mapped (by omega) (by omega) (by omega) (by omega)
        (by omega) (by omega) (by omega) (by omega),
      replicate_getD_none, Option.getD_none,
      distFallbackVal_self h (getElem?_eq_some_getD ⟨0, 0, 0⟩ (by omega)) 0.8 0.2 (by norm_num)]
  · rw [assignDistFallback_getD p p n n 0.8 0.2 _ (by rw [hs1len]; omega),
      assignAngleSims_getD_not_mapped (by omega) (by omega) (by omega) (by omega)
        (by omega) (by omega) (by omega) (by omega),
      replicate_getD_none, Option.getD_none,
      distFallbackVal_self h (getElem?_eq_some_getD ⟨0, 0, 0⟩ (by omega)) 0.8 0.2 (by norm_num)]

end PoseUtil

namespace PoseUtil

theorem zeroPose_fullyVisible : FullyVisible zeroPose := by
  intro o ho
  exact ⟨_, List.eq_of_mem_replicate ho, rfl⟩

theorem zeroPose_length : zeroPose.length = 33 := by
  simp [zeroPose]

theorem lmArr_zeroPose : lmArr zeroPose = List.replicate 33 ⟨0, 0, 0⟩ := by
  unfold zeroPose lmArr
  rw [List.map_replicate]
  rfl

theorem anglesOf_zero : anglesOf (List.replicate 33 (⟨0, 0, 0⟩ : Vec3)) =
    ⟨none, none, none, none, none, none, none, none⟩ := by
  unfold anglesOf
  norm_num [List.getElem?_replicate, angleBetweenPoints]

end PoseUtil

open PoseUtil Hook in
/-- Claim C5, counterexample: the all-origin fully-visible 33-landmark pose
is well-formed with visibility 1 everywhere, yet its aggregate similarity
against itself is `29/65`, not `1.0`: all eight joint angles are `null`
(zero-length rays), so each mapped joint contributes the `0.2` floor
instead of `1`. -/
theorem claim_C5_counterexample :
    aggregateSimilarityV1 zeroPose zeroPose = .ok (29 / 65) ∧ (29 / 65 : ℝ) ≠ 1 := by
  obtain ⟨sims, n, hn, hnlen33, hperj, ⟨h25, h26, h23, h24, h13, h14, h11, h12⟩,
    h15, h16, h27, h28⟩ := perJointV1_self_getD zeroPose_fullyVisible zeroPose_length
  rw [lmArr_zeroPose, anglesOf_zero] at h25 h26 h23 h24 h13 h14 h11 h12
  norm_num [angleSimilarity, -List.getD_eq_getElem?_getD] at h25 h26 h23 h24 h13 h14 h11 h12
  have hsp := shoulderSpreadSimilarity_self zeroPose_fullyVisible.completePose hn
    (by rw [hnlen33]; omega) 1.0
  have hagg := aggregateSimilarityV1_eq hperj hsp
  rw [weightedAggregateV1_compute h11 h12 h13 h14 h15 h16 h23 h24 h25 h26 h27 h28 1] at hagg
  refine ⟨?_, by norm_num⟩
  rw [hagg]
  congr 1
  norm_num

open PoseUtil Hook in
/-- Claim C5, amended: for any fully-visible 33-landmark pose whose eight
mapped joint angles are all defined (no zero-length ray at a knee, hip,
elbow or shoulder), the aggregate pose similarity of the first hook
variant of the pose compared against itself is exactly 1. -/
theorem claim_C5_theorem {p : JsPose} (h : FullyVisible p) (hlen : p.length = 33)
    (ha1 : (anglesOf (lmArr p)).left_knee.isSome)
    (ha2 : (anglesOf (lmArr p)).right_knee.isSome)
    (ha3 : (anglesOf (lmArr p)).left_hip.isSome)
    (ha4 : (anglesOf (lmArr p)).right_hip.isSome)
    (ha5 : (anglesOf (lmArr p)).left_elbow.isSome)
    (ha6 : (anglesOf (lmArr p)).right_elbow.isSome)
    (ha7 : (anglesOf (lmArr p)).left_shoulder.isSome)
    (ha8 : (anglesOf (lmArr p)).right_shoulder.isSome) :
    aggregateSimilarityV1 p p = .ok 1 := by
  obtain ⟨sims, n, hn, hnlen33, hperj, ⟨h25, h26, h23, h24, h13, h14, h11, h12⟩,
    h15, h16, h27, h28⟩ := perJointV1_self_getD h hlen
  rw [angleSimilarity_self ha1] at h25
  rw [angleSimilarity_self ha2] at h26
  rw [angleSimilarity_self ha3] at h23
  rw [angleSimilarity_self ha4] at h24
  rw [angleSimilarity_self ha5] at h13
  rw [angleSimilarity_self ha6] at h14
  rw [angleSimilarity_self ha7] at h11
  rw [angleSimilarity_self ha8] at h12
  norm_num [-List.getD_eq_getElem?_getD] at h25 h26 h23 h24 h13 h14 h11 h12
  have hsp := shoulderSpreadSimilarity_self h.completePose hn (by rw [hnlen33]; omega) 1.0
  have hagg := aggregateSimilarityV1_eq hperj hsp
  rw [weightedAggregateV1_compute h11 h12 h13 h14 h15 h16 h23 h24 h25 h26 h27 h28 1] at hagg
  rw [hagg]
  congr 1
  norm_num

namespace PoseUtil

theorem wpose_fullyVisible : FullyVisible wpose := by
  intro o ho
  rcases List.mem_map.mp ho with ⟨i, -, rfl⟩
  exact ⟨_, rfl, rfl⟩

theorem wpose_length : wpose.length = 33 := by
  unfold wpose
  rw [List.length_map, List.length_range]

theorem lmArr_wpose_getElem (k : ℕ) (hk : k < 33) :
    (lmArr wpose)[k]? = some ⟨(k : ℝ), 0, 0⟩ := by
  unfold wpose lmArr
  rw [List.map_map, List.getElem?_map, List.getElem?_range hk]
  rfl

theorem angleBetweenPoints_x_isSome {a b c : ℝ} (hab : a ≠ b) (hcb : c ≠ b) :
    (angleBetweenPoints (some ⟨a, 0, 0⟩) (some ⟨b, 0, 0⟩) (some ⟨c, 0, 0⟩)).isSome := by
  simp only [angleBetweenPoints]
  rw [if_neg]
  · rfl
  · push_neg
    have h1 : (0 : ℝ) < (a - b) ^ 2 := by
      rcases (sub_ne_zero.mpr hab).lt_or_lt with hlt | hlt <;> nlinarith
    have h2 : (0 : ℝ) < (c - b) ^ 2 := by
      rcases (sub_ne_zero.mpr hcb).lt_or_lt with hlt | hlt <;> nlinarith
    constructor <;> rw [show ((0:ℝ) - 0) ^ 2 = 0 by norm_num] <;>
      rw [Real.sqrt_ne_zero'] <;> linarith

theorem wpose_angles_isSome :
    (anglesOf (lmArr wpose)).left_knee.isSome ∧
    (anglesOf (lmArr wpose)).right_knee.isSome ∧
    (anglesOf (lmArr wpose)).left_hip.isSome ∧
    (anglesOf (lmArr wpose)).right_hip.isSome ∧
    (anglesOf (lmArr wpose)).left_elbow.isSome ∧
    (anglesOf (lmArr wpose)).right_elbow.isSome ∧
    (anglesOf (lmArr wpose)).left_shoulder.isSome ∧
    (anglesOf (lmArr wpose)).right_shoulder.isSome := by
  unfold anglesOf
  rw [lmArr_wpose_getElem 11 (by omega), lmArr_wpose_getElem 12 (by omega),
    lmArr_wpose_getElem 13 (by omega), lmArr_wpose_getElem 14 (by omega),
    lmArr_wpose_getElem 15 (by omega), lmArr_wpose_getElem 16 (by omega),
    lmArr_wpose_getElem 23 (by omega), lmArr_wpose_getElem 24 (by omega),
    lmArr_wpose_getElem 25 (by omega), lmArr_wpose_getElem 26 (by omega),
    lmArr_wpose_getElem 27 (by omega), lmArr_wpose_getElem 28 (by omega)]
  refine ⟨?_, ?_, ?_, ?_, ?_, ?_, ?_, ?_⟩ <;>
    exact angleBetweenPoints_x_isSome (by norm_num) (by norm_num)

end PoseUtil

open PoseUtil Hook in
/-- Witness for C5: the concrete x-axis pose satisfies every hypothesis of
the amended identity claim, and its self-similarity is exactly 1. -/
theorem claim_C5_witness : aggregateSimilarityV1 wpose wpose = .ok 1 :=
  claim_C5_theorem wpose_fullyVisible wpose_length
    wpose_angles_isSome.1 wpose_angles_isSome.2.1 wpose_angles_isSome.2.2.1
    wpose_angles_isSome.2.2.2.1 wpose_angles_isSome.2.2.2.2.1
    wpose_angles_isSome.2.2.2.2.2.1 wpose_angles_isSome.2.2.2.2.2.2.1
    wpose_angles_isSome.2.2.2.2.2.2.2

theorem jsRound_eq {x : ℝ} {z : ℤ} (h1 : (z : ℝ) ≤ x + 1/2) (h2 : x + 1/2 < z + 1) :
    jsRound x = z := by
  unfold jsRound
  rw [Int.floor_eq_iff]
  exact ⟨h1, by exact_mod_cast h2⟩

namespace Scoring

theorem calculateConsistency_nil : calculateConsistency [] = 0 := by
  unfold calculateConsistency
  norm_num

theorem calculateTimingAccuracy_nil : calculateTimingAccuracy [] = 0.5 := by
  unfold calculateTimingAccuracy
  norm_num

theorem calculateStyleBonus_nil : calculateStyleBonus [] = 0 := by
  unfold calculateStyleBonus
  norm_num

theorem assessChallengeDifficulty_nil : assessChallengeDifficulty [] = .BEGINNER := by
  unfold assessChallengeDifficulty
  norm_num

/-- Full evaluation of the aggregator on empty inputs: the timing default
`0.5` enters the weighted sum with weight `0.1`, so the final percent is
`5`, not `0`. -/
theorem comprehensive_empty :
    calculateComprehensiveScore [] [] [] =
      { finalScore := 5
        breakdown := { accuracy := 0, consistency := 0, timing := 50, style := 0 }
        difficulty := .BEGINNER
        difficultyMultiplier := 1.0
        totalSteps := 0
        validSteps := 0
        averageStepScore := 0 } := by
  unfold calculateComprehensiveScore
  rw [calculateConsistency_nil, calculateTimingAccuracy_nil, calculateStyleBonus_nil,
    assessChallengeDifficulty_nil]
  simp only [List.filterMap_nil, List.length_nil, lt_irrefl, if_false,
    ComprehensiveScore.mk.injEq, ScoreBreakdown.mk.injEq, DIFFICULTY_MULTIPLIERS,
    SCORING_WEIGHTS_ACCURACY, SCORING_WEIGHTS_CONSISTENCY, SCORING_WEIGHTS_TIMING,
    SCORING_WEIGHTS_STYLE]
  norm_num
  and_intros <;> (apply jsRound_eq <;> norm_num)

end Scoring

open Scoring in
/-- Claim C3, counterexample: on an empty `bestScorePerStep` array the
aggregator returns `finalScore = 5` (the `0.5` timing default times its
`0.1` weight, times 100), not `0` as the claim states. -/
theorem claim_C3_counterexample :
    (calculateComprehensiveScore [] [] []).finalScore = 5 ∧ (5 : ℤ) ≠ 0 :=
  ⟨by rw [comprehensive_empty], by norm_num⟩

open Scoring in
/-- Claim C3, amended: on an empty `bestScorePerStep` array the aggregator
returns accuracy 0, consistency 0, timing at the neutral default 0.5 (50
percent), style 0, and `finalScorePercent = 5` (the timing default times
its 0.1 weight); every output is a well-defined number (the model is exact
real arithmetic, and every division is guarded, so no NaN arises). -/
theorem claim_C3_theorem :
    (calculateComprehensiveScore [] [] []).breakdown.accuracy = 0 ∧
    (calculateComprehensiveScore [] [] []).breakdown.consistency = 0 ∧
    (calculateComprehensiveScore [] [] []).breakdown.timing = 50 ∧
    calculateTimingAccuracy [] = 0.5 ∧
    (calculateComprehensiveScore [] [] []).breakdown.style = 0 ∧
    (calculateComprehensiveScore [] [] []).finalScore = 5 := by
  rw [comprehensive_empty, calculateTimingAccuracy_nil]
  norm_num

open Scoring in
/-- Claim C6: the Performance Points computation satisfies the documented
formulas: `basePP = max(5, finalScorePercent/100 * 100)`, the difficulty
bonus is 0/20/35/50 by tier, the improvement bonus is
`25 * (finalScorePercent - personalBest)/100` exactly when the personal
best is beaten, the streak bonus is `10 * min(3, floor(currentStreak/3))`
for a streak of at least 3, the excellence bonus is 5/10/15 at the
85/90/95 thresholds, and `totalPP` is the JS rounding of the sum of all
of these. -/
theorem claim_C6_theorem (finalScore personalBest currentStreak : ℝ)
    (difficulty : Difficulty) :
    (calculatePerformancePoints finalScore difficulty personalBest currentStreak).totalPP
      = jsRound (max 5 (finalScore / 100 * 100)
        + (match difficulty with
           | .EXPERT => 50 | .ADVANCED => 35 | .INTERMEDIATE => 20 | .BEGINNER => 0)
        + (if finalScore > personalBest then 25 * ((finalScore - personalBest) / 100) else 0)
        + (if currentStreak ≥ 3 then 10 * ((min 3 ⌊currentStreak / 3⌋ : ℤ) : ℝ) else 0)
        + (if finalScore ≥ 95 then 15 else if finalScore ≥ 90 then 10
           else if finalScore ≥ 85 then 5 else 0)) ∧
    ((match difficulty with
      | .EXPERT => 50 | .ADVANCED => 35 | .INTERMEDIATE => 20 | .BEGINNER => 0 : ℝ)
      ∈ ({0, 20, 35, 50} : Set ℝ)) := by
  constructor
  · unfold calculatePerformancePoints
    cases difficulty <;>
      norm_num [PP_MIN_PP, PP_MAX_PP, PP_DIFFICULTY_BONUS, PP_IMPROVEMENT_BONUS,
        PP_STREAK_BONUS]
  · cases difficulty <;> simp [Set.mem_insert_iff]

open Hook in
/-- Claim C7, counterexample: the joint-weight table of the first hook
variant together with its shoulder-spread weight sums to 1.30, not 1.0. -/
theorem claim_C7_counterexample :
    (weightMapV1.map fun entry => entry.2).sum + shoulderSpreadWeightV1 ≠ 1 := by
  norm_num [weightMapV1, shoulderSpreadWeightV1]

open Hook in
/-- Claim C7, amended: the weight tables sum (with the shoulder-spread
term) to 1.30 in the first hook variant and 1.35 in the second, not 1.0
(the aggregate divides by the total weight, so the output range is
unaffected); in both variants the combined arm (shoulders, elbows,
wrists) and leg (knees, ankles) weights exceed four times the hip
weights. -/
theorem claim_C7_theorem :
    ((weightMapV1.map fun entry => entry.2).sum + shoulderSpreadWeightV1 = 1.30) ∧
    ((weightMapV2.map fun entry => entry.2).sum + shoulderSpreadWeightV2 = 1.35) ∧
    (((weightMapV1.filter fun entry =>
        entry.1 ∈ ([11, 12, 13, 14, 15, 16, 25, 26, 27, 28] : List ℕ)).map
          fun entry => entry.2).sum
      > 4 * ((weightMapV1.filter fun entry =>
        entry.1 ∈ ([23, 24] : List ℕ)).map fun entry => entry.2).sum) ∧
    (((weightMapV2.filter fun entry =>
        entry.1 ∈ ([11, 12, 13, 14, 15, 16, 25, 26, 27, 28] : List ℕ)).map
          fun entry => entry.2).sum
      > 4 * ((weightMapV2.filter fun entry =>
        entry.1 ∈ ([23, 24] : List ℕ)).map fun entry => entry.2).sum) := by
  refine ⟨?_, ?_, ?_, ?_⟩ <;>
    norm_num [weightMapV1, weightMapV2, shoulderSpreadWeightV1, shoulderSpreadWeightV2,
      List.filter]

open PoseUtil in
/-- Claim C1, counterexample: on a non-empty pose with a single landmark
(fewer than 33 entries), all three scoring functions throw: reading
`arr[23][0]` in `normalizeLandmarks` is a TypeError on an array of length
1, and both `perJointAngleSimilarity` and `poseSimilarity` reach that read. -/
theorem claim_C1_counterexample :
    normalizeLandmarks [⟨0, 0, 0⟩] = .error () ∧
    perJointAngleSimilarity [some ⟨some 0, some 0, some 0, some 1⟩]
      [some ⟨some 0, some 0, some 0, some 1⟩] ⟨none, none, none⟩ = .error () ∧
    poseSimilarity [some ⟨some 0, some 0, some 0, some 1⟩]
      [some ⟨some 0, some 0, some 0, some 1⟩] = .error () := by
  refine ⟨rfl, ?_, ?_⟩ <;> rfl

open PoseUtil in
/-- Claim C1, amended: `normalizeLandmarks`, `perJointAngleSimilarity` and
`poseSimilarity` return a value without throwing whenever each input pose
has every entry defined and is either empty or has at least 25 entries
(so the hip and shoulder indices 11/12/23/24 exist); a non-empty pose
with fewer than 25 entries, or an undefined entry, makes them throw. -/
theorem claim_C1_theorem {pA pB : JsPose} (hA : CompletePose pA) (hB : CompletePose pB)
    (hlenA : pA.length = 0 ∨ 25 ≤ pA.length) (hlenB : pB.length = 0 ∨ 25 ≤ pB.length)
    (opts : SimOpts) :
    (∃ arr, (landmarksToArray pA).bind normalizeLandmarks = .ok arr) ∧
    (∃ sims, perJointAngleSimilarity pA pB opts = .ok sims) ∧
    (∃ v, poseSimilarity pA pB = .ok v) := by
  obtain ⟨n, hn, -⟩ := @normalizeLandmarks_ok_of_len (lmArr pA)
    (by rw [lmArr_length]; exact hlenA)
  refine ⟨⟨n, ?_⟩, perJointAngleSimilarity_ok hA hB hlenA hlenB opts,
    poseSimilarity_ok hA hB hlenA hlenB⟩
  rw [landmarksToArray_complete hA]
  exact hn

open PoseUtil in
/-- Witness for C1: both inputs empty (a detector frame with no person)
satisfy the hypotheses, and none of the three functions throws. -/
theorem claim_C1_witness :
    (∃ arr, (landmarksToArray ([] : JsPose)).bind normalizeLandmarks = .ok arr) ∧
    (∃ sims, perJointAngleSimilarity ([] : JsPose) ([] : JsPose)
      ⟨none, none, none⟩ = .ok sims) ∧
    (∃ v, poseSimilarity ([] : JsPose) ([] : JsPose) = .ok v) :=
  claim_C1_theorem (fun o ho => absurd ho (List.not_mem_nil o))
    (fun o ho => absurd ho (List.not_mem_nil o)) (Or.inl rfl) (Or.inl rfl)
    ⟨none, none, none⟩

namespace PoseUtil

theorem cex9Arr_length : cex9Arr.length = 25 := by
  unfold cex9Arr
  rw [List.length_map, List.length_range]

theorem cex9Arr_getD (k : ℕ) (hk : k < 25) :
    cex9Arr.getD k ⟨0, 0, 0⟩ = if k = 11 ∨ k = 12 then ⟨5e-7, 0, 0⟩ else ⟨0, 0, 0⟩ := by
  unfold cex9Arr
  rw [List.getD_eq_getElem?_getD, List.getElem?_map, List.getElem?_range hk]
  rfl

theorem cex9Arr_dist : hipShoulderDist cex9Arr = 5e-7 := by
  unfold hipShoulderDist
  have harg : ((shoulderMid cex9Arr).x - (hipMid cex9Arr).x) ^ 2 +
      ((shoulderMid cex9Arr).y - (hipMid cex9Arr).y) ^ 2 +
      ((shoulderMid cex9Arr).z - (hipMid cex9Arr).z) ^ 2 = (5e-7 : ℝ) ^ 2 := by
    unfold hipMid shoulderMid
    rw [cex9Arr_getD 23 (by omega), cex9Arr_getD 24 (by omega),
      cex9Arr_getD 11 (by omega), cex9Arr_getD 12 (by omega)]
    norm_num
  rw [harg, Real.sqrt_sq (by norm_num)]

end PoseUtil

open PoseUtil in
/-- Claim C9, counterexample: the divisor is not floored at `1e-6`.  On a
pose whose shoulder-to-hip midpoint distance is `5e-7` (nonzero but below
`1e-6`), `normalizeLandmarks` divides by `5e-7` itself — landmark 11 maps
to x-coordinate `1`, while a `1e-6`-floored divisor would give `1/2`. -/
theorem claim_C9_counterexample :
    hipShoulderDist cex9Arr = 5e-7 ∧ (5e-7 : ℝ) < 1e-6 ∧
    normScale cex9Arr = 5e-7 ∧
    (normalizeLandmarks cex9Arr).map (fun l => l.getD 11 ⟨0, 0, 0⟩)
      = .ok ⟨1, 0, 0⟩ ∧
    (1 : ℝ) ≠ 5e-7 / 1e-6 := by
  have hscale : normScale cex9Arr = 5e-7 := by
    unfold normScale
    rw [cex9Arr_dist, if_neg (by norm_num)]
  refine ⟨cex9Arr_dist, by norm_num, hscale, ?_, by norm_num⟩
  rw [normalizeLandmarks_eq (by rw [cex9Arr_length])]
  have h11 : cex9Arr[11]? = some ⟨(5e-7 : ℝ), 0, 0⟩ := by
    unfold cex9Arr
    rw [List.getElem?_map, List.getElem?_range (by omega)]
    norm_num
  have hhip : hipMid cex9Arr = ⟨0, 0, 0⟩ := by
    unfold hipMid
    rw [cex9Arr_getD 23 (by omega), cex9Arr_getD 24 (by omega)]
    norm_num
  norm_num [Except.map, h11, hhip, hscale]

open PoseUtil in
/-- Claim C9, amended: for any array with the hip/shoulder indices present
(length at least 25), `normalizeLandmarks` returns every point translated
by minus the hip midpoint and divided by `normScale`, where `normScale` is
the shoulder-to-hip midpoint distance with `1e-6` substituted only when
that distance is exactly zero (a nonzero distance smaller than `1e-6` is
used as-is). -/
theorem claim_C9_theorem {arr : List Vec3} (h : 25 ≤ arr.length) :
    normalizeLandmarks arr = .ok (arr.map fun p =>
      ⟨(p.x - (hipMid arr).x) / normScale arr, (p.y - (hipMid arr).y) / normScale arr,
       (p.z - (hipMid arr).z) / normScale arr⟩) ∧
    normScale arr = (if hipShoulderDist arr = 0 then 1e-6 else hipShoulderDist arr) :=
  ⟨normalizeLandmarks_eq h, rfl⟩

open PoseUtil in
/-- Witness for C9: the length-25 counterexample array satisfies the
hypothesis, and the characterization applies to it. -/
theorem claim_C9_witness :
    (normalizeLandmarks cex9Arr = .ok (cex9Arr.map fun p =>
      ⟨(p.x - (hipMid cex9Arr).x) / normScale cex9Arr,
       (p.y - (hipMid cex9Arr).y) / normScale cex9Arr,
       (p.z - (hipMid cex9Arr).z) / normScale cex9Arr⟩) ∧
    normScale cex9Arr
      = (if hipShoulderDist cex9Arr = 0 then 1e-6 else hipShoulderDist cex9Arr)) :=
  claim_C9_theorem (by rw [cex9Arr_length])

namespace PoseUtil

theorem perJointAngleSimilarityD_eq {pA pB : JsPose} (hA : CompletePose pA)
    (hB : CompletePose pB) {nA nB : List Vec3}
    (hnA : normalizeLandmarks (lmArr pA) = .ok nA)
    (hnB : normalizeLandmarks (lmArr pB) = .ok nB) :
    perJointAngleSimilarity pA pB ⟨none, none, none⟩ =
      .ok (assignDistFallback pA pB nA nB 0.6 0.25
        (assignAngleSims pA pB (anglesOf (lmArr pA)) (anglesOf (lmArr pB)) 25 0.25
          (List.replicate pA.length none))) :=
  perJointAngleSimilarity_eq hA hB hnA hnB ⟨none, none, none⟩

theorem pVis02_complete : CompletePose pVis02 := by
  intro o ho
  rcases List.mem_cons.mp ho with rfl | hm
  · rfl
  · rw [List.eq_of_mem_replicate hm]
    rfl

theorem pVis02_length : pVis02.length = 33 := by
  unfold pVis02
  rw [List.length_cons, List.length_replicate]

theorem lmArr_pVis02 : lmArr pVis02 = List.replicate 33 ⟨0, 0, 0⟩ := by
  show List.map toVec (pVis02) = _
  unfold pVis02
  rw [List.map_cons, List.map_replicate, show (33 : ℕ) = 32 + 1 from rfl,
    List.replicate_succ]
  rfl

end PoseUtil

open PoseUtil in
/-- Claim C2, failing input (code bug): `perJointAngleSimilarity` is
documented to return similarity scores in `[0, 1]`, but on two
coordinate-identical well-formed poses that differ only in the visibility
of landmark 0 (`0.2` versus `1`), the low-visibility fallback branch
multiplies the perfect distance similarity `1` by the un-clamped factor
`max(0.5, 0.6/0.25) = 2.4`, returning `2.4 > 1` at index 0. -/
theorem claim_C2_theorem :
    (perJointAngleSimilarity pVis02 zeroPose ⟨none, none, none⟩).map
      (fun sims => sims.getD 0 none) = .ok (some 2.4) ∧ ¬ ((2.4 : ℝ) ≤ 1) := by
  obtain ⟨n, hn, hnlen⟩ := @normalizeLandmarks_ok_of_len
    (List.replicate 33 ⟨0, 0, 0⟩) (by rw [List.length_replicate]; omega)
  have hnA : normalizeLandmarks (lmArr pVis02) = .ok n := by rw [lmArr_pVis02]; exact hn
  have hnB : normalizeLandmarks (lmArr zeroPose) = .ok n := by rw [lmArr_zeroPose]; exact hn
  have heq := perJointAngleSimilarityD_eq pVis02_complete
    zeroPose_fullyVisible.completePose hnA hnB
  rw [pVis02_length] at heq
  have hnlen33 : n.length = 33 := by rw [hnlen, List.length_replicate]
  have hs1len := assignAngleSims_length_33 pVis02 zeroPose (anglesOf (lmArr pVis02))
    (anglesOf (lmArr zeroPose)) 25 0.25
  have hv0 : visOf pVis02 0 = 0.2 := rfl
  have hv1 : visOf zeroPose 0 = 1 := visOf_eq_one zeroPose_fullyVisible 0
  have hdv : distFallbackVal pVis02 zeroPose n n 0.6 0.25 0 = 2.4 := by
    simp only [distFallbackVal,
      getElem?_eq_some_getD (⟨0, 0, 0⟩ : Vec3) (show (0 : ℕ) < n.length by omega),
      hv0, hv1]
    norm_num
  have h0 : (assignDistFallback pVis02 zeroPose n n 0.6 0.25
      (assignAngleSims pVis02 zeroPose (anglesOf (lmArr pVis02)) (anglesOf (lmArr zeroPose))
        25 0.25 (List.replicate 33 none))).getD 0 none = some 2.4 := by
    rw [assignDistFallback_getD _ _ _ _ _ _ _ (by rw [hs1len]; omega),
      assignAngleSims_getD_not_mapped (by omega) (by omega) (by omega) (by omega)
        (by omega) (by omega) (by omega) (by omega),
      replicate_getD_none, Option.getD_none, hdv]
  refine ⟨?_, by norm_num⟩
  rw [heq]
  simp only [Except.map]
  congr 1

namespace Hook

theorem frameOp_step_le (cfg : SessionCfg) (refLen : ℕ) (m e : Bool) (s : StepState)
    (hs : s.step ≤ refLen - 1) : (frameOp cfg refLen m e s).step ≤ refLen - 1 := by
  unfold frameOp
  dsimp only
  split_ifs <;> simp_all <;> omega

theorem frameOp_step_final (cfg : SessionCfg) (refLen : ℕ) (m e : Bool) (s : StepState)
    (hs : s.step = refLen - 1) : (frameOp cfg refLen m e s).step = refLen - 1 := by
  unfold frameOp
  dsimp only
  split_ifs <;> simp_all <;> omega

theorem applyOp_step_le (cfg : SessionCfg) (refLen : ℕ) (s : StepState) (op : StepOp)
    (hs : s.step ≤ refLen - 1) : (applyOp cfg refLen s op).step ≤ refLen - 1 := by
  cases op with
  | frame m e => exact frameOp_step_le cfg refLen m e s hs
  | next =>
    show (nextStepOp refLen s).step ≤ refLen - 1
    unfold nextStepOp
    split
    · exact hs
    · simp <;> omega
  | prev =>
    show (prevStepOp refLen s).step ≤ refLen - 1
    unfold prevStepOp
    split
    · exact hs
    · simp <;> omega
  | goTo i =>
    show (goToStepOp refLen i s).step ≤ refLen - 1
    unfold goToStepOp
    split
    · exact hs
    · simp <;> omega

end Hook

open Hook in
/-- Claim C4: starting from the initial state, any sequence of frame,
`nextStep`, `prevStep` and `goToStep` operations keeps `currentStepIndex`
within `[0, max(0, len - 1)]` (here `refLen - 1` in truncated ℕ
subtraction, which is `0` for an empty sequence); and a frame processed on
the final step never advances past it, whatever the configuration. -/
theorem claim_C4_theorem (cfg : SessionCfg) (refLen : ℕ) (ops : List StepOp) :
    ((ops.foldl (applyOp cfg refLen) initState).step ≤ refLen - 1) ∧
    (∀ s : StepState, s.step = refLen - 1 → ∀ matched elapsed,
      (frameOp cfg refLen matched elapsed s).step = refLen - 1) :=
  ⟨foldl_preserve (P := fun s : StepState => s.step ≤ refLen - 1)
      (fun s op _ hs => applyOp_step_le cfg refLen s op hs) (Nat.zero_le _),
   fun s hs matched elapsed => frameOp_step_final cfg refLen matched elapsed s hs⟩

open Hook in
/-- Witness for C4: a concrete run (threshold-hold configuration, two-step
reference, a mix of frames and manual navigation) stays within bounds, and
a matching frame on the final step of a two-step sequence stays there. -/
theorem claim_C4_witness :
    ((([.frame true false, .next, .goTo 5, .prev, .frame true true,
        .frame false false] : List StepOp).foldl
          (applyOp ⟨4, 0, false⟩ 2) initState).step ≤ 2 - 1) ∧
    (frameOp ⟨4, 0, false⟩ 2 true true ⟨1, 7⟩).step = 2 - 1 :=
  ⟨(claim_C4_theorem ⟨4, 0, false⟩ 2 _).1,
   (claim_C4_theorem ⟨4, 0, false⟩ 2 []).2 ⟨1, 7⟩ rfl true true⟩

theorem exceptBind_error {α β : Type} (e : Unit) (f : α → Except Unit β) :
    ((Except.error e : Except Unit α) >>= f) = .error e := rfl

theorem except_ok_inj {α : Type} {a b : α}
    (h : (Except.ok a : Except Unit α) = .ok b) : a = b := by
  injection h

theorem jsSetExtend_preserves_nonneg {s : List (Option ℝ)} {i : ℕ} {v : ℝ}
    (hv : 0 ≤ v) (hs : ∀ j w, s.getD j none = some w → 0 ≤ w) :
    ∀ j w, (jsSetExtend s i v).getD j none = some w → 0 ≤ w := by
  intro j w hj
  rcases eq_or_ne i j with rfl | hne
  · rw [jsSetExtend_getD_self] at hj
    injection hj with h
    exact h ▸ hv
  · rw [jsSetExtend_getD_ne _ _ _ _ hne] at hj
    exact hs j w hj

namespace PoseUtil

theorem angleJointVal_nonneg (lmA lmB : JsPose) (aA aB : JointAngles)
    (tol visT : ℝ) (g : JointAngles → Option ℝ) (idx : ℕ) :
    0 ≤ angleJointVal lmA lmB aA aB tol visT g idx :=
  le_trans (by norm_num) (le_max_left _ _)

theorem distFallbackVal_nonneg (lmA lmB : JsPose) (nA nB : List Vec3)
    (dT vT : ℝ) (i : ℕ) : 0 ≤ distFallbackVal lmA lmB nA nB dT vT i := by
  unfold distFallbackVal
  split
  · by_cases hc : visOf lmA i < vT ∨ visOf lmB i < vT
    · simp only [eq_true hc, if_true]
      exact le_trans (by norm_num) (le_max_left _ _)
    · simp only [eq_false hc, if_false]
      exact le_max_left _ _
  · norm_num

theorem assignAngleSims_nonneg (lmA lmB : JsPose) (aA aB : JointAngles)
    (tol visT : ℝ) {s : List (Option ℝ)}
    (hs : ∀ j w, s.getD j none = some w → 0 ≤ w) :
    ∀ j w, (assignAngleSims lmA lmB aA aB tol visT s).getD j none = some w → 0 ≤ w := by
  unfold assignAngleSims
  refine foldl_preserve
    (P := fun t : List (Option ℝ) => ∀ j w, t.getD j none = some w → 0 ≤ w) ?_ hs
  intro t entry _ ht
  exact jsSetExtend_preserves_nonneg (angleJointVal_nonneg _ _ _ _ _ _ _ _) ht

theorem assignDistFallback_nonneg (lmA lmB : JsPose) (nA nB : List Vec3)
    (dT vT : ℝ) {s : List (Option ℝ)}
    (hs : ∀ j w, s.getD j none = some w → 0 ≤ w) :
    ∀ j w, (assignDistFallback lmA lmB nA nB dT vT s).getD j none = some w → 0 ≤ w := by
  unfold assignDistFallback
  refine foldl_preserve
    (P := fun t : List (Option ℝ) => ∀ j w, t.getD j none = some w → 0 ≤ w) ?_ hs
  intro t i _ ht
  rcases hv : t.getD i none with _ | v <;> simp only [hv]
  · exact jsSetExtend_preserves_nonneg (distFallbackVal_nonneg _ _ _ _ _ _ _) ht
  · exact ht

set_option maxHeartbeats 1000000 in
theorem perJoint_ok_inv {pA pB : JsPose} {opts : SimOpts} {sims : List (Option ℝ)}
    (h : perJointAngleSimilarity pA pB opts = .ok sims) :
    ∃ aA aB nA nB, sims = assignDistFallback pA pB nA nB
      (jsOrNum opts.distTolerance 0.6) (opts.visibilityThreshold.getD 0.25)
      (assignAngleSims pA pB aA aB (jsOrNum opts.angleTolerance 25)
        (opts.visibilityThreshold.getD 0.25) (List.replicate pA.length none)) := by
  unfold perJointAngleSimilarity at h
  rcases h1 : poseToAngles pA with e | aA <;> rw [h1] at h
  · rw [exceptBind_error] at h
    cases h
  simp only [exceptBind_ok] at h
  rcases h2 : poseToAngles pB with e | aB <;> rw [h2] at h
  · rw [exceptBind_error] at h
    cases h
  simp only [exceptBind_ok] at h
  rcases h3 : landmarksToArray pA with e | arrA <;> rw [h3] at h
  · rw [exceptBind_error] at h
    cases h
  simp only [exceptBind_ok] at h
  rcases h4 : normalizeLandmarks arrA with e | nA <;> rw [h4] at h
  · rw [exceptBind_error] at h
    cases h
  simp only [exceptBind_ok] at h
  rcases h5 : landmarksToArray pB with e | arrB <;> rw [h5] at h
  · rw [exceptBind_error] at h
    cases h
  simp only [exceptBind_ok] at h
  rcases h6 : normalizeLandmarks arrB with e | nB <;> rw [h6] at h
  · rw [exceptBind_error] at h
    cases h
  simp only [exceptBind_ok] at h
  refine ⟨aA, aB, nA, nB, ?_⟩
  exact (except_ok_inj h).symm

theorem shoulderSpread_ok_nonneg {pA pB : JsPose} {tol : ℝ} {v : ℝ}
    (h : shoulderSpreadSimilarity pA pB tol = .ok v) : 0 ≤ v := by
  unfold shoulderSpreadSimilarity at h
  rcases h3 : landmarksToArray pA with e | arrA <;> rw [h3] at h
  · rw [exceptBind_error] at h
    cases h
  simp only [exceptBind_ok] at h
  rcases h4 : normalizeLandmarks arrA with e | nA <;> rw [h4] at h
  · rw [exceptBind_error] at h
    cases h
  simp only [exceptBind_ok] at h
  rcases h5 : landmarksToArray pB with e | arrB <;> rw [h5] at h
  · rw [exceptBind_error] at h
    cases h
  simp only [exceptBind_ok] at h
  rcases h6 : normalizeLandmarks arrB with e | nB <;> rw [h6] at h
  · rw [exceptBind_error] at h
    cases h
  simp only [exceptBind_ok] at h
  split at h
  · rw [← except_ok_inj h]
  · split at h <;> rw [← except_ok_inj h] <;>
      first
        | exact le_refl 0
        | exact le_max_left _ _

end PoseUtil

namespace Hook

open PoseUtil

/-- A frozen user (zero motion energy) is penalized by factor 0.05 or 0.5,
in both cases at most half of the unmodified similarity. -/
theorem motionPenaltyV1_frozen (sim refMotion : ℝ) (hsim : 0 ≤ sim) :
    motionPenaltyV1 sim 0 refMotion ≤ 0.5 * sim := by
  unfold motionPenaltyV1
  rw [if_pos (by norm_num)]
  split <;> nlinarith

theorem stripVisibility_getD (p : JsPose) (i : ℕ) :
    (stripVisibility p).getD i none =
      (p.getD i none).map fun lm => ⟨lm.x, lm.y, lm.z, none⟩ := by
  unfold stripVisibility
  rw [List.getD_eq_getElem?_getD, List.getElem?_map, List.getD_eq_getElem?_getD]
  rcases p[i]? with _ | o
  · rfl
  · rcases o with _ | lm <;> rfl

theorem mean_zero_of_all_zero (L : List ℝ) (h : ∀ x ∈ L, x = 0) :
    (if L.length = 0 then (0 : ℝ) else L.sum / L.length) = 0 := by
  split
  · rfl
  · rw [List.sum_eq_zero h, zero_div]

/-- The user motion computed between the stored copy of the previous
landmarks (visibility stripped) and an identical current frame is zero. -/
theorem meanDisplacement_strip (p : JsPose) :
    meanDisplacement (stripVisibility p) p = 0 := by
  unfold meanDisplacement
  rw [if_pos (by unfold stripVisibility; rw [List.length_map])]
  have hzero : ∀ x ∈ (List.range p.length).filterMap fun i =>
      match (stripVisibility p).getD i none, p.getD i none with
      | some a, some b =>
        some (Real.sqrt ((a.x.getD 0 - b.x.getD 0) ^ 2 + (a.y.getD 0 - b.y.getD 0) ^ 2
          + (a.z.getD 0 - b.z.getD 0) ^ 2))
      | _, _ => none, x = 0 := by
    intro x hx
    rcases List.mem_filterMap.mp hx with ⟨i, -, hfi⟩
    rw [stripVisibility_getD] at hfi
    rcases hp : p.getD i none with _ | lm <;> rw [hp] at hfi
    · cases hfi
    · have hfi2 : some (Real.sqrt ((lm.x.getD 0 - lm.x.getD 0) ^ 2 +
          (lm.y.getD 0 - lm.y.getD 0) ^ 2 + (lm.z.getD 0 - lm.z.getD 0) ^ 2)) = some x := hfi
      injection hfi2 with hfi2
      rw [← hfi2, sub_self, sub_self, sub_self]
      norm_num
  exact mean_zero_of_all_zero _ hzero

theorem aggregateSimilarityV1_inv {p q : JsPose} {base : ℝ}
    (h : aggregateSimilarityV1 p q = .ok base) :
    ∃ sims sp, perJointAngleSimilarity p q ⟨some 30, some 0.8, some 0.2⟩ = .ok sims ∧
      shoulderSpreadSimilarity p q 1.0 = .ok sp ∧
      base = weightedAggregate sims sp weightMapV1 shoulderSpreadWeightV1 0.5 := by
  unfold aggregateSimilarityV1 at h
  rcases h1 : perJointAngleSimilarity p q ⟨some 30, some 0.8, some 0.2⟩ with e | sims <;>
    rw [h1] at h
  · rw [exceptBind_error] at h
    cases h
  simp only [exceptBind_ok] at h
  rcases h2 : shoulderSpreadSimilarity p q 1.0 with e | sp <;> rw [h2] at h
  · rw [exceptBind_error] at h
    cases h
  simp only [exceptBind_ok] at h
  exact ⟨sims, sp, rfl, rfl, (except_ok_inj h).symm⟩

theorem aggregateSimilarityV1_ok {p q : JsPose} (hA : CompletePose p)
    (hB : CompletePose q) (hlenA : p.length = 0 ∨ 25 ≤ p.length)
    (hlenB : q.length = 0 ∨ 25 ≤ q.length) :
    ∃ base, aggregateSimilarityV1 p q = .ok base := by
  obtain ⟨sims, hs⟩ := perJointAngleSimilarity_ok hA hB hlenA hlenB
    ⟨some 30, some 0.8, some 0.2⟩
  obtain ⟨sp, hsp⟩ := shoulderSpreadSimilarity_ok hA hB hlenA hlenB 1.0
  exact ⟨_, aggregateSimilarityV1_eq hs hsp⟩

theorem weightedAggregateV1_nonneg {sims : List (Option ℝ)} {sp : ℝ}
    (hsims : ∀ j v, sims.getD j none = some v → 0 ≤ v) (hsp : 0 ≤ sp) :
    0 ≤ weightedAggregate sims sp weightMapV1 shoulderSpreadWeightV1 0.5 := by
  have ht : ∀ idx : ℕ, 0 ≤ (sims.getD idx none).getD 0.5 := by
    intro idx
    rcases hv : sims.getD idx none with _ | v
    · norm_num
    · exact hsims idx v hv
  unfold weightedAggregate weightMapV1 shoulderSpreadWeightV1
  rw [if_neg (by norm_num)]
  apply div_nonneg _ (by norm_num)
  simp only [List.map_cons, List.map_nil, List.sum_cons, List.sum_nil]
  repeat' apply add_nonneg
  all_goals
    first
      | exact mul_nonneg (ht _) (by norm_num)
      | exact mul_nonneg hsp (by norm_num)
      | norm_num

end Hook

namespace Hook

open PoseUtil

theorem perJoint_values_nonneg {pA pB : JsPose} {opts : SimOpts} {sims : List (Option ℝ)}
    (h : perJointAngleSimilarity pA pB opts = .ok sims) :
    ∀ j v, sims.getD j none = some v → 0 ≤ v := by
  obtain ⟨aA, aB, nA, nB, heq⟩ := perJoint_ok_inv h
  rw [heq]
  refine assignDistFallback_nonneg _ _ _ _ _ _ (assignAngleSims_nonneg _ _ _ _ _ _ ?_)
  intro j w hw
  rw [replicate_getD_none] at hw
  cases hw

theorem frameSimilarityV1_eq_of_ok {live lastPose r0 r1 : JsPose} {base : ℝ}
    (hbase : aggregateSimilarityV1 live r1 = .ok base) :
    frameSimilarityV1 live lastPose r0 r1 =
      .ok (motionPenaltyV1 base (meanDisplacement lastPose live)
        (meanDisplacement r0 r1)) := by
  unfold frameSimilarityV1
  rw [hbase]
  rfl

end Hook

open PoseUtil Hook in
/-- Claim C8: when the aggregate similarity path succeeds, a live input
held perfectly static (the stored previous frame holds the same
landmarks, so the user motion energy is zero) receives, at the second
step of a reference whose consecutive steps differ by more than the 0.02
motion epsilon, a motion-gated similarity of at most half the unmodified
aggregate similarity. -/
theorem claim_C8_theorem {live r0 r1 : JsPose} {base : ℝ}
    (hbase : aggregateSimilarityV1 live r1 = .ok base)
    (hdiff : 0.02 < meanDisplacement r0 r1) :
    ∃ v, frameSimilarityV1 live (stripVisibility live) r0 r1 = .ok v ∧
      v ≤ 0.5 * base := by
  obtain ⟨sims, sp, hsims, hsp, hb⟩ := aggregateSimilarityV1_inv hbase
  have hnn : 0 ≤ base := by
    rw [hb]
    exact weightedAggregateV1_nonneg (perJoint_values_nonneg hsims)
      (shoulderSpread_ok_nonneg hsp)
  refine ⟨motionPenaltyV1 base 0 (meanDisplacement r0 r1), ?_,
    motionPenaltyV1_frozen base _ hnn⟩
  rw [frameSimilarityV1_eq_of_ok hbase, meanDisplacement_strip]

theorem filterMap_range_const {α : Type _} (n : ℕ) (f : ℕ → Option α) (c : α)
    (h : ∀ i < n, f i = some c) :
    (List.range n).filterMap f = List.replicate n c := by
  induction n with
  | zero => rfl
  | succ m ih =>
    rw [List.range_succ, List.filterMap_append, ih (fun i hi => h i (by omega)),
      List.replicate_succ']
    simp only [List.filterMap_cons, h m (by omega), List.filterMap_nil]

theorem mean_of_replicate (n : ℕ) (hn : n ≠ 0) (c : ℝ) :
    (if (List.replicate n c).length = 0 then (0 : ℝ)
      else (List.replicate n c).sum / (List.replicate n c).length) = c := by
  rw [List.length_replicate, List.sum_replicate, if_neg hn, nsmul_eq_mul,
    mul_div_cancel_left₀ c (Nat.cast_ne_zero.mpr hn)]

namespace PoseUtil

theorem onePose_fullyVisible : FullyVisible onePose := by
  intro o ho
  exact ⟨_, List.eq_of_mem_replicate ho, rfl⟩

theorem onePose_length : onePose.length = 33 := by
  unfold onePose
  rw [List.length_replicate]

theorem meanDisplacement_zero_one : Hook.meanDisplacement zeroPose onePose = 1 := by
  unfold Hook.meanDisplacement
  rw [if_pos (by unfold zeroPose onePose
                 rw [List.length_replicate, List.length_replicate])]
  have hf : ∀ i < onePose.length, (fun i =>
      match zeroPose.getD i none, onePose.getD i none with
      | some p, some q =>
        some (Real.sqrt ((p.x.getD 0 - q.x.getD 0) ^ 2 + (p.y.getD 0 - q.y.getD 0) ^ 2
          + (p.z.getD 0 - q.z.getD 0) ^ 2))
      | _, _ => none) i = some 1 := by
    intro i hi
    rw [onePose_length] at hi
    have h0 : zeroPose.getD i none = some ⟨some 0, some 0, some 0, some 1⟩ := by
      unfold zeroPose
      rw [List.getD_eq_getElem?_getD, List.getElem?_replicate, if_pos hi]
      rfl
    have h1 : onePose.getD i none = some ⟨some 1, some 0, some 0, some 1⟩ := by
      unfold onePose
      rw [List.getD_eq_getElem?_getD, List.getElem?_replicate, if_pos hi]
      rfl
    simp only [h0, h1]
    congr 1
    rw [show ((some (0 : ℝ)).getD 0 - (some (1 : ℝ)).getD 0) ^ 2 +
        ((some (0 : ℝ)).getD 0 - (some (0 : ℝ)).getD 0) ^ 2 +
        ((some (0 : ℝ)).getD 0 - (some (0 : ℝ)).getD 0) ^ 2 = 1 by norm_num]
    exact Real.sqrt_one
  rw [filterMap_range_const _ _ 1 hf]
  exact mean_of_replicate 33 (by norm_num) 1

end PoseUtil

open PoseUtil Hook in
/-- Witness for C8: a concrete static user (the zero pose, repeated) against
a reference that moves every landmark a unit along x between steps: the
aggregate path succeeds, the inter-step displacement 1 exceeds the
epsilon, and the gated similarity is at most half the aggregate. -/
theorem claim_C8_witness :
    ∃ base v, aggregateSimilarityV1 zeroPose onePose = .ok base ∧
      frameSimilarityV1 zeroPose (stripVisibility zeroPose) zeroPose onePose = .ok v ∧
      v ≤ 0.5 * base := by
  obtain ⟨base, hbase⟩ := aggregateSimilarityV1_ok zeroPose_fullyVisible.completePose
    onePose_fullyVisible.completePose (Or.inr (by rw [zeroPose_length]; omega))
    (Or.inr (by rw [onePose_length]; omega))
  obtain ⟨v, hv, hle⟩ := claim_C8_theorem hbase
    (by rw [meanDisplacement_zero_one]; norm_num)
  exact ⟨base, v, hbase, hv, hle⟩

namespace PoseUtil

theorem getD_of_vis {p : JsPose}
    (hvis : ∀ o ∈ p, ∃ lm, o = some lm ∧ lm.visibility = some 1)
    {idx : ℕ} (hidx : idx < p.length) :
    ∃ lm, p.getD idx none = some lm ∧ lm.visibility = some 1 := by
  rcases hvis p[idx] (p.getElem_mem hidx) with ⟨lm, hc, hv⟩
  refine ⟨lm, ?_, hv⟩
  rw [List.getD_eq_getElem?_getD, List.getElem?_eq_getElem hidx, hc]
  rfl

theorem zeroPose_getD {k : ℕ} (hk : k < 33) :
    zeroPose.getD k none = some ⟨some 0, some 0, some 0, some 1⟩ := by
  unfold zeroPose
  rw [List.getD_eq_getElem?_getD, List.getElem?_replicate, if_pos hk]
  rfl

theorem onePose_getD {k : ℕ} (hk : k < 33) :
    onePose.getD k none = some ⟨some 1, some 0, some 0, some 1⟩ := by
  unfold onePose
  rw [List.getD_eq_getElem?_getD, List.getElem?_replicate, if_pos hk]
  rfl

theorem translateX_zeroPose_one : translateX zeroPose 1 = onePose := by
  unfold translateX zeroPose onePose
  rw [List.map_replicate]
  norm_num

end PoseUtil

namespace Scoring

open PoseUtil

theorem poseSimStep_self {p : JsPose} {idx : ℕ} {lm : Landmark}
    (hlm : p.getD idx none = some lm) (hv : lm.visibility = some 1)
    (acc : ℝ × ℝ) (w : ℝ) :
    poseSimStep p p acc (idx, w) = (acc.1 + w, acc.2 + w) := by
  unfold poseSimStep
  simp only [hlm, hv, sub_self]
  norm_num [jsOrNum]

theorem poseSimStep_zero_one {idx : ℕ} (hk : idx < 33) (acc : ℝ × ℝ) (w : ℝ) :
    poseSimStep zeroPose onePose acc (idx, w) = (acc.1, acc.2 + w) := by
  unfold poseSimStep
  simp only [zeroPose_getD hk, onePose_getD hk]
  norm_num [jsOrNum, show ((0 : ℝ) - 1) * (0 - 1) + (0 - 0) * (0 - 0) +
    (0 - 0) * (0 - 0) = 1 by norm_num]

/-- The backend distance-based scorer returns exactly 1 on any pose with
the twelve weighted joints present and fully visible, compared against
itself. -/
theorem calculatePoseSimilarity_self {p : JsPose} (hlen : 29 ≤ p.length)
    (hvis : ∀ o ∈ p, ∃ lm, o = some lm ∧ lm.visibility = some 1) :
    calculatePoseSimilarity p p = 1 := by
  obtain ⟨l11, h11, hv11⟩ := getD_of_vis hvis (show 11 < p.length by omega)
  obtain ⟨l12, h12, hv12⟩ := getD_of_vis hvis (show 12 < p.length by omega)
  obtain ⟨l13, h13, hv13⟩ := getD_of_vis hvis (show 13 < p.length by omega)
  obtain ⟨l14, h14, hv14⟩ := getD_of_vis hvis (show 14 < p.length by omega)
  obtain ⟨l15, h15, hv15⟩ := getD_of_vis hvis (show 15 < p.length by omega)
  obtain ⟨l16, h16, hv16⟩ := getD_of_vis hvis (show 16 < p.length by omega)
  obtain ⟨l23, h23, hv23⟩ := getD_of_vis hvis (show 23 < p.length by omega)
  obtain ⟨l24, h24, hv24⟩ := getD_of_vis hvis (show 24 < p.length by omega)
  obtain ⟨l25, h25, hv25⟩ := getD_of_vis hvis (show 25 < p.length by omega)
  obtain ⟨l26, h26, hv26⟩ := getD_of_vis hvis (show 26 < p.length by omega)
  obtain ⟨l27, h27, hv27⟩ := getD_of_vis hvis (show 27 < p.length by omega)
  obtain ⟨l28, h28, hv28⟩ := getD_of_vis hvis (show 28 < p.length by omega)
  unfold calculatePoseSimilarity
  rw [if_neg (by simp)]
  simp only [jointWeights, List.foldl_cons, List.foldl_nil]
  rw [poseSimStep_self h11 hv11, poseSimStep_self h12 hv12, poseSimStep_self h13 hv13,
    poseSimStep_self h14 hv14, poseSimStep_self h15 hv15, poseSimStep_self h16 hv16,
    poseSimStep_self h23 hv23, poseSimStep_self h24 hv24, poseSimStep_self h25 hv25,
    poseSimStep_self h26 hv26, poseSimStep_self h27 hv27, poseSimStep_self h28 hv28]
  norm_num

/-- The backend scorer on the zero pose against its unit x-translation:
every joint distance is 1 (beyond the 0.6 tolerance), so every
contribution and the total are 0. -/
theorem calculatePoseSimilarity_zero_one :
    calculatePoseSimilarity zeroPose onePose = 0 := by
  unfold calculatePoseSimilarity
  rw [if_neg (by rw [zeroPose_length, onePose_length]; omega)]
  simp only [jointWeights, List.foldl_cons, List.foldl_nil]
  rw [poseSimStep_zero_one (by omega), poseSimStep_zero_one (by omega),
    poseSimStep_zero_one (by omega), poseSimStep_zero_one (by omega),
    poseSimStep_zero_one (by omega), poseSimStep_zero_one (by omega),
    poseSimStep_zero_one (by omega), poseSimStep_zero_one (by omega),
    poseSimStep_zero_one (by omega), poseSimStep_zero_one (by omega),
    poseSimStep_zero_one (by omega), poseSimStep_zero_one (by omega)]
  norm_num

end Scoring

open Scoring PoseUtil in
/-- Claim C10: the backend `calculatePoseSimilarity` compares raw
coordinates: it returns 1 for any fully-visible pose (with the twelve
weighted joints present) against itself, but translating the zero pose by
a constant unit x offset drops the similarity to 0 < 1 — it is not
translation-invariant. -/
theorem claim_C10_theorem {p : JsPose} (hlen : 29 ≤ p.length)
    (hvis : ∀ o ∈ p, ∃ lm, o = some lm ∧ lm.visibility = some 1) :
    calculatePoseSimilarity p p = 1 ∧
    calculatePoseSimilarity zeroPose (translateX zeroPose 1) <
      calculatePoseSimilarity zeroPose zeroPose := by
  refine ⟨calculatePoseSimilarity_self hlen hvis, ?_⟩
  rw [translateX_zeroPose_one, calculatePoseSimilarity_zero_one,
    calculatePoseSimilarity_self (p := zeroPose) (by rw [zeroPose_length]; omega) ?hv]
  · norm_num
  case hv =>
    intro o ho
    exact ⟨_, List.eq_of_mem_replicate ho, rfl⟩

open Scoring PoseUtil in
/-- Witness for C10: the x-axis pose is fully visible with all joints
present; its backend self-similarity is 1 and the translated zero pose
scores strictly less than the untranslated one. -/
theorem claim_C10_witness :
    calculatePoseSimilarity wpose wpose = 1 ∧
    calculatePoseSimilarity zeroPose (translateX zeroPose 1) <
      calculatePoseSimilarity zeroPose zeroPose :=
  claim_C10_theorem (by rw [wpose_length]; omega)
    (fun o ho => by
      rcases List.mem_map.mp ho with ⟨i, -, rfl⟩
      exact ⟨_, rfl, rfl⟩)
